import Mathlib

/-!
# Slider cart widget (`assets/ct-slider-cart.js`)

A shallow embedding of the storefront script and the properties proved about it.

* JavaScript numbers are IEEE-754 binary64 values.  A finite number is kept as the
  rational it denotes and every arithmetic result is rounded to the nearest
  binary64 value, ties to even (`roundToDouble`).  The sign of zero is dropped:
  no operation of the script can observe it (`toFixed`, `ToString`, `||`, `>`
  and `+ 1` treat both zeros alike).
* Built-in conversions are written out where the script can reach them with whole
  numbers of cents and quantities; the shortest round-trip digits of other numbers are
  the parameter `numStr`.
* The page is the record `Doc` of the elements the script looks up by id.
* Network calls, rendering calls, alerts and storage writes are recorded, in
  order, in `World.trace`.  The responses of the server are arguments of the
  operation that awaits them.
* An `async` function is run to completion; its result says whether the promise
  was fulfilled or rejected.
-/

namespace SliderCart

/-! ## Numbers -/

/-- A JavaScript Number: `NaN`, an infinity, or a finite value. -/
inductive JSNum
  | nan
  | inf (neg : Bool)
  | fin (v : ℚ)
  deriving DecidableEq, Repr

/-- Floor of the binary logarithm of `n`, by halving (`fuel ≥ n` is enough). -/
def log2Fuel : Nat → Nat → Nat
  | 0, _ => 0
  | fuel + 1, n => if n < 2 then 0 else log2Fuel fuel (n / 2) + 1

/-- The exponent `e` with `2 ^ e ≤ |x| < 2 ^ (e + 1)` of a non-zero rational. -/
def floorLog2 (x : ℚ) : ℤ :=
  let d : ℤ := (log2Fuel x.num.natAbs x.num.natAbs : ℤ) - (log2Fuel x.den x.den : ℤ)
  if (2 : ℚ) ^ d ≤ |x| then d else d - 1

/-- Exponent of the binary64 binade of `x`; below `2 ^ (-1022)` the numbers are subnormal. -/
def binade (x : ℚ) : ℤ := max (floorLog2 x) (-1022)

/-- Nearest integer, a tie going to the even one. -/
def roundHalfEven (y : ℚ) : ℤ :=
  let f := ⌊y⌋
  if y - f < 1 / 2 then f
  else if 1 / 2 < y - f then f + 1
  else if f % 2 = 0 then f else f + 1

/-- Rounding of an exact result to binary64: 53 significant bits, round to nearest,
ties to even, overflow to an infinity. -/
def roundToDouble (x : ℚ) : JSNum :=
  let u : ℚ := (2 : ℚ) ^ (binade x - 52)
  let v : ℚ := roundHalfEven (x / u) * u
  if (2 : ℚ) ^ (1024 : ℕ) ≤ |v| then JSNum.inf (decide (x < 0)) else JSNum.fin v

/-- The product `a * b` of two Numbers. -/
def JSNum.mul : JSNum → JSNum → JSNum
  | .nan, _ => .nan
  | _, .nan => .nan
  | .inf s, .inf t => .inf (xor s t)
  | .inf s, .fin v => if v = 0 then .nan else .inf (xor s (decide (v < 0)))
  | .fin v, .inf s => if v = 0 then .nan else .inf (xor s (decide (v < 0)))
  | .fin a, .fin b => roundToDouble (a * b)

/-- The quotient `a / 100`. -/
def JSNum.div100 : JSNum → JSNum
  | .nan => .nan
  | .inf s => .inf s
  | .fin v => roundToDouble (v / 100)

/-- The sum `a + b`. -/
def JSNum.add : JSNum → JSNum → JSNum
  | .nan, _ => .nan
  | _, .nan => .nan
  | .inf s, .inf t => if s = t then .inf s else .nan
  | .inf s, .fin _ => .inf s
  | .fin _, .inf t => .inf t
  | .fin a, .fin b => roundToDouble (a + b)

/-- The difference `a - b`. -/
def JSNum.sub : JSNum → JSNum → JSNum
  | .nan, _ => .nan
  | _, .nan => .nan
  | .inf s, .inf t => if s = t then .nan else .inf s
  | .inf s, .fin _ => .inf s
  | .fin _, .inf t => .inf (!t)
  | .fin a, .fin b => roundToDouble (a - b)

/-- The comparison `a > b`. -/
def JSNum.gt : JSNum → JSNum → Bool
  | .nan, _ => false
  | _, .nan => false
  | .inf s, .inf t => !s && t
  | .inf s, .fin _ => !s
  | .fin _, .inf t => t
  | .fin a, .fin b => decide (b < a)

/-- Truthiness of a Number: `NaN` and zero are falsy. -/
def JSNum.truthy : JSNum → Bool
  | .nan => false
  | .inf _ => true
  | .fin v => decide (v ≠ 0)

/-- The expression `a || b` on Numbers. -/
def JSNum.or (a b : JSNum) : JSNum := if a.truthy then a else b

/-- Number to String conversion.  An integer of magnitude at most `2 ^ 53` prints as its
decimal digits; the shortest round-trip digits of every other finite value are left to
`numStr`. -/
def numberToString (numStr : ℚ → String) : JSNum → String
  | .nan => "NaN"
  | .inf neg => if neg then "-Infinity" else "Infinity"
  | .fin v =>
    if v.den = 1 ∧ |v| ≤ 2 ^ 53 then
      (if v < 0 then "-" else "") ++ toString v.num.natAbs
    else numStr v

/-- The call `x.toFixed(2)`: the integer `n` nearest to `100 * |x|` (the larger of two
equally near), its digits padded to three, and a point before the last two.  From
`10 ^ 21` on the digits are those of the Number to String conversion, left to `numStr`. -/
def toFixed2 (numStr : ℚ → String) : JSNum → String
  | .nan => "NaN"
  | .inf neg => if neg then "-Infinity" else "Infinity"
  | .fin v =>
    let s := if v < 0 then "-" else ""
    let x := |v|
    if (10 : ℚ) ^ (21 : ℕ) ≤ x then s ++ numStr x
    else
      let n : Nat := (⌊x * 100 + 1 / 2⌋).toNat
      let m := (toString n).data
      let m := if m.length ≤ 2 then List.replicate (3 - m.length) '0' ++ m else m
      s ++ String.mk (m.take (m.length - 2)) ++ "." ++ String.mk (m.drop (m.length - 2))

/-- White space and line terminators skipped by `parseInt`. -/
def isStrWhiteSpace (c : Char) : Bool :=
  decide (c.toNat ∈ [9, 10, 11, 12, 13, 32, 160, 5760, 8232, 8233, 8239, 8287, 12288, 65279])
    || (decide (8192 ≤ c.toNat) && decide (c.toNat ≤ 8202))

/-- Value of a character as a digit in radix `r`, when it is one. -/
def digitValue (r : Nat) (c : Char) : Option Nat :=
  let d : Option Nat :=
    if 48 ≤ c.toNat ∧ c.toNat ≤ 57 then some (c.toNat - 48)
    else if 97 ≤ c.toNat ∧ c.toNat ≤ 122 then some (c.toNat - 87)
    else if 65 ≤ c.toNat ∧ c.toNat ≤ 90 then some (c.toNat - 55)
    else none
  match d with
  | some n => if n < r then some n else none
  | none => none

/-- The longest run of radix-`r` digits at the head of `cs`, as digit values. -/
def takeDigits (r : Nat) : List Char → List Nat
  | [] => []
  | c :: cs =>
    match digitValue r c with
    | some d => d :: takeDigits r cs
    | none => []

/-- Value of a digit sequence, most significant digit first. -/
def digitsValue (r : Nat) (ds : List Nat) : Nat := ds.foldl (fun acc d => acc * r + d) 0

/-- The radix and the rest of the input after an optional `0x` or `0X`. -/
def stripHex (cs : List Char) : Nat × List Char :=
  match cs with
  | c :: d :: rest => if c = '0' ∧ (d = 'x' ∨ d = 'X') then (16, rest) else (10, cs)
  | _ => (10, cs)

/-- The sign and the rest of the input after an optional `+` or `-`. -/
def stripSign (cs : List Char) : Bool × List Char :=
  match cs with
  | c :: rest =>
    if c = '-' then (true, rest) else if c = '+' then (false, rest) else (false, cs)
  | [] => (false, cs)

/-- The call `parseInt(s)` without a radix argument: leading white space, a sign, a
radix mark, then the longest run of digits; no digit gives `NaN`.  The value is exact
before the rounding to binary64 (an engine may round decimal input after its twentieth
significant digit). -/
def parseInt (s : String) : JSNum :=
  let signed := stripSign (s.data.dropWhile isStrWhiteSpace)
  let hex := stripHex signed.2
  let ds := takeDigits hex.1 hex.2
  if ds = [] then JSNum.nan
  else
    let n : ℚ := (digitsValue hex.1 ds : ℚ)
    roundToDouble (if signed.1 then -n else n)

/-! ## Strings -/

/-- Whether `pat` starts the character list. -/
def startsWith : List Char → List Char → Bool
  | _, [] => true
  | [], _ :: _ => false
  | c :: cs, p :: ps => c == p && startsWith cs ps

/-- Whether `pat` occurs somewhere in the character list. -/
def includesChars : List Char → List Char → Bool
  | [], pat => pat.isEmpty
  | c :: cs, pat => startsWith (c :: cs) pat || includesChars cs pat

/-- The call `s.includes(pat)`. -/
def includes (s pat : String) : Bool := includesChars s.data pat.data

/-- The call `s.toLowerCase()`.  Only the letters `A` to `Z` change here; the characters
outside ASCII whose lower case is an ASCII letter give `i` or `k`, which none of the
patterns searched for below contains. -/
def toLowerCase (s : String) : String := s.map Char.toLower

/-! ## Data model -/

/-- A line item of the cart object returned by the server. -/
structure Item where
  key : String
  title : String
  price : JSNum
  quantity : JSNum
  options_with_values : Option (List (String × String))
  properties : Option (List (String × String))
  deriving DecidableEq, Repr

/-- The cart object returned by the server. -/
structure Cart where
  items : Option (List Item)
  total_price : JSNum
  total_tax : Option JSNum
  deriving DecidableEq, Repr

/-- A parsed response body: `null`, or an object read as a cart. -/
inductive Json
  | null
  | cart (c : Cart)
  deriving DecidableEq, Repr

/-- What a `fetch` call gives: a rejection, or a status with a body (`none` when the body
is not JSON). -/
inductive Response
  | networkError
  | http (status : Nat) (body : Option Json)
  deriving DecidableEq, Repr

/-- The flag `response.ok`; a rejected `fetch` gives no response to read it from. -/
def Response.ok : Response → Bool
  | .networkError => false
  | .http status _ => decide (200 ≤ status) && decide (status ≤ 299)

/-- One entry of the `items` array posted to the add endpoint. -/
structure AddItem where
  id : Option String
  quantity : JSNum
  properties : List (String × String)
  deriving DecidableEq, Repr

/-- A request sent with `fetch`: the post to `/cart/add.js` with its `items`, the get of
`/cart.js`, and the post to `/cart/change.js` with its form fields. -/
inductive Request
  | add (items : List AddItem)
  | cart
  | change (line : String) (quantity : String)
  deriving DecidableEq, Repr

/-- An observable action of the script. -/
inductive Event
  | fetch (r : Request)
  | renderCartItems (items : Option (List Item))
  | updateCartTotals (cart : Cart)
  | openCartSlider
  | alert (message : String)
  | setItem (key : String) (value : String)
  deriving DecidableEq, Repr

/-- The entries of a form, as `new FormData(form)` lists them. -/
structure Form where
  entries : List (String × String)
  deriving DecidableEq, Repr

/-- The call `formData.get(name)`: the first value under the name, or `null`. -/
def Form.get (f : Form) (name : String) : Option String :=
  (f.entries.find? (fun e => e.1 == name)).map (fun e => e.2)

/-- A button element. -/
structure Button where
  classList : List String
  id : String
  dataAction : Option String
  textContent : String
  disabled : Bool
  form : Option Form
  deriving DecidableEq, Repr

/-- The elements the script looks up; `none` for an element the page lacks. -/
structure Doc where
  cartItems : Option String
  subtotal : Option String
  tax : Option String
  total : Option String
  sliderCart : Option Bool
  cartOverlay : Option Bool
  orderNotes : Option String
  deriving DecidableEq, Repr

/-- The page, the stored notes, the pending debounce timer and the actions so far. -/
structure World where
  doc : Doc
  cartNotes : Option String
  notesTimeout : Option Nat
  trace : List Event
  deriving DecidableEq, Repr

/-- Appends an action to the trace. -/
def World.log (w : World) (e : Event) : World := { w with trace := w.trace ++ [e] }

/-- What a row button's listener reads from the page: its `data-item-line` attribute and
the value of the quantity input beside it (`none` when there is none). -/
structure RowButton where
  dataItemLine : Option String
  qtyInputValue : Option String
  deriving DecidableEq, Repr

/-! ## Rendering -/

/-- Markup shown for a cart without items. -/
def emptyCartHTML : String :=
  "\n        <div class=\"empty-cart\">\n          <div class=\"empty-cart-icon\">🛍️</div>\n          <p>Your cart is empty</p>\n        </div>\n      "

/-- Markup of the variant options and of the custom properties with a truthy value. -/
def propertiesHTML (item : Item) : String :=
  let options :=
    match item.options_with_values with
    | some opts =>
      String.join (opts.map fun o =>
        "<span class=\"property\"><strong>" ++ o.1 ++ ":</strong> " ++ o.2 ++ "</span>")
    | none => ""
  let custom :=
    match item.properties with
    | some props =>
      String.join ((props.filter fun p => p.2 ≠ "").map fun p =>
        "<span class=\"property\">" ++ p.1 ++ ": " ++ p.2 ++ "</span>")
    | none => ""
  options ++ custom

/-- The text `itemTotal.toFixed(2)` with `itemTotal = (item.price * item.quantity) / 100`. -/
def itemTotalText (numStr : ℚ → String) (item : Item) : String :=
  toFixed2 numStr (JSNum.div100 (JSNum.mul item.price item.quantity))

/-- The opening tag of a card. -/
def cardOpen (lineNumber : Nat) (key : String) : String :=
  "\n        <div class=\"cart-item\" data-item-line=\"" ++ toString lineNumber
    ++ "\" data-item-key=\"" ++ key ++ "\">"

/-- The remove button of a card. -/
def removeButtonHTML (lineNumber : Nat) : String :=
  "<button class=\"remove-btn\" data-item-line=\"" ++ toString lineNumber
    ++ "\" type=\"button\" title=\"Remove\">×</button>"

/-- The decrement button of a card. -/
def minusButtonHTML (lineNumber : Nat) : String :=
  "<button class=\"qty-btn qty-minus\" data-item-line=\"" ++ toString lineNumber
    ++ "\" type=\"button\">−</button>"

/-- The increment button of a card. -/
def plusButtonHTML (lineNumber : Nat) : String :=
  "<button class=\"qty-btn qty-plus\" data-item-line=\"" ++ toString lineNumber
    ++ "\" type=\"button\">+</button>"

/-- The closing part of a card, from the line total on. -/
def cardClose (total : String) : String :=
  "<span class=\"item-price\">" ++ total ++ "</span>\n          </div>\n        </div>\n      "

/-- The card of one item up to its line total; `lineNumber` is `index + 1`, exact for
every array index. -/
def cardBody (numStr : ℚ → String) (lineNumber : Nat) (item : Item) : String :=
  cardOpen lineNumber item.key
    ++ "\n          <div class=\"item-header\">\n            <h4>" ++ item.title
    ++ "</h4>\n            " ++ removeButtonHTML lineNumber
    ++ "\n          </div>\n          \n          "
    ++ (if propertiesHTML item ≠ "" then
          "<div class=\"item-properties\">" ++ propertiesHTML item ++ "</div>"
        else "")
    ++ "\n          \n          <div class=\"item-footer\">\n            <div class=\"quantity-control\">\n              "
    ++ minusButtonHTML lineNumber
    ++ "\n              <input type=\"number\" class=\"qty-input\" value=\""
    ++ numberToString numStr item.quantity
    ++ "\" readonly>\n              " ++ plusButtonHTML lineNumber
    ++ "\n            </div>\n            "

/-- The card of one item: the template literal of `renderCartItems`. -/
def itemCard (numStr : ℚ → String) (lineNumber : Nat) (item : Item) : String :=
  cardBody numStr lineNumber item ++ cardClose (itemTotalText numStr item)

/-- The cards of the items from line number `first` on. -/
def itemCards (numStr : ℚ → String) : Nat → List Item → List String
  | _, [] => []
  | first, item :: rest => itemCard numStr first item :: itemCards numStr (first + 1) rest

/-- What `renderCartItems` does to the page: nothing without the container, the
empty-state markup for no items, else the joined cards. -/
def renderCartItemsDoc (numStr : ℚ → String) (items : Option (List Item)) (d : Doc) : Doc :=
  match d.cartItems with
  | none => d
  | some _ =>
    match items with
    | none => { d with cartItems := some emptyCartHTML }
    | some [] => { d with cartItems := some emptyCartHTML }
    | some (item :: rest) =>
      { d with cartItems := some (String.join (itemCards numStr 1 (item :: rest))) }

/-- The function `renderCartItems`.  After writing the cards it attaches the listeners
`removeClick`, `qtyPlusClick` and `qtyMinusClick` to the new buttons. -/
def renderCartItems (numStr : ℚ → String) (items : Option (List Item)) (w : World) : World :=
  { w with
    doc := renderCartItemsDoc numStr items w.doc
    trace := w.trace ++ [.renderCartItems items] }

/-- What `updateCartTotals` does to the page. -/
def updateCartTotalsDoc (numStr : ℚ → String) (cart : Cart) (d : Doc) : Doc :=
  let taxOrZero := JSNum.or (cart.total_tax.getD .nan) (.fin 0)
  let subtotal := JSNum.sub (JSNum.div100 cart.total_price) (JSNum.div100 taxOrZero)
  let tax := JSNum.div100 taxOrZero
  let total := JSNum.div100 cart.total_price
  { d with
    subtotal := d.subtotal.map fun _ => "$" ++ toFixed2 numStr subtotal
    tax := d.tax.map fun _ => "$" ++ toFixed2 numStr tax
    total := d.total.map fun _ => "$" ++ toFixed2 numStr total }

/-- The function `updateCartTotals`; a missing `total_tax` is `undefined`, which `|| 0`
replaces like `NaN`. -/
def updateCartTotals (numStr : ℚ → String) (cart : Cart) (w : World) : World :=
  { w with
    doc := updateCartTotalsDoc numStr cart w.doc
    trace := w.trace ++ [.updateCartTotals cart] }

/-- The function `openCartSlider`. -/
def openCartSlider (w : World) : World :=
  { w with
    doc := { w.doc with
      sliderCart := w.doc.sliderCart.map fun _ => true
      cartOverlay := w.doc.cartOverlay.map fun _ => true }
    trace := w.trace ++ [.openCartSlider] }

/-- The function `closeCartSlider`. -/
def closeCartSlider (w : World) : World :=
  { w with doc := { w.doc with
      sliderCart := w.doc.sliderCart.map fun _ => false
      cartOverlay := w.doc.cartOverlay.map fun _ => false } }

/-! ## Network operations -/

/-- The function `fetchShopifyCart`: `none` when the promise is rejected. -/
def fetchShopifyCart (resp : Response) (w : World) : World × Option Json :=
  let w := w.log (.fetch .cart)
  match resp with
  | .networkError => (w, none)
  | .http status body =>
    if (Response.http status body).ok then (w, body) else (w, none)

/-- The statements `renderCartItems(cart.items); updateCartTotals(cart);` on a fetched
value; reading `items` of `null` throws. -/
def renderCart (numStr : ℚ → String) (cart : Json) (w : World) : World × Bool :=
  match cart with
  | .null => (w, false)
  | .cart c => (updateCartTotals numStr c (renderCartItems numStr c.items w), true)

/-- The button test of the click listener. -/
def isAddToCart (button : Button) : Bool :=
  button.classList.contains "add-to-cart"
    || button.classList.contains "product-form__submit"
    || button.classList.contains "product-form__submit-button"
    || button.id == "AddToCart"
    || button.dataAction == some "add-to-cart"
    || includes (toLowerCase button.textContent) "add to cart"
    || includes (toLowerCase button.textContent) "add to bag"
    || includes (toLowerCase button.textContent) "buy now"

/-- The body posted for a form, as the object handed to `JSON.stringify`: one entry with
the form's `id`, its quantity or 1, and no properties. -/
def addBody (form : Form) : List AddItem :=
  [{ id := form.get "id"
     quantity := JSNum.or (parseInt ((form.get "quantity").getD "null")) (.fin 1)
     properties := [] }]

/-- The `try` block of `handleAddToCart`; the flag says whether it completed without a
throw.  The 1500 ms wait before the cart fetch changes nothing that is recorded. -/
def handleAddToCartTry (numStr : ℚ → String) (addResp cartResp : Response)
    (button : Button) (w : World) : World × Bool :=
  let posted : World × Bool :=
    match button.form with
    | some form =>
      let w := w.log (.fetch (.add (addBody form)))
      match addResp with
      | .networkError => (w, false)
      | .http _ _ => (w, true)
    | none => (w, true)
  if posted.2 then
    match fetchShopifyCart cartResp posted.1 with
    | (w, none) => (w, false)
    | (w, some cart) =>
      match renderCart numStr cart w with
      | (w, false) => (w, false)
      | (w, true) => (openCartSlider w, true)
  else posted

/-- The function `handleAddToCart`, with the button as it is when the operation ends. -/
def handleAddToCart (numStr : ℚ → String) (addResp cartResp : Response)
    (button : Button) (w : World) : Button × World :=
  let originalText := button.textContent
  let busy : Button := { button with disabled := true, textContent := "Adding..." }
  let attempt := handleAddToCartTry numStr addResp cartResp busy w
  let w :=
    if attempt.2 then attempt.1
    else attempt.1.log (.alert "Error adding item to cart. Please try again.")
  ({ busy with disabled := false, textContent := originalText }, w)

/-- The document click listener; `target` is `e.target.closest("button")`. -/
def clickListener (numStr : ℚ → String) (addResp cartResp : Response)
    (target : Option Button) (w : World) : Option Button × World :=
  match target with
  | none => (none, w)
  | some button =>
    if isAddToCart button then
      let r := handleAddToCart numStr addResp cartResp button w
      (some r.1, r.2)
    else (some button, w)

/-- The shared body of `updateCartItemQuantity` and `removeFromCart`: one change request,
a render of the returned cart, and on any failure a fresh fetch and render.  The flag
says whether the promise is fulfilled. -/
def changeLine (numStr : ℚ → String) (changeResp fallbackResp : Response)
    (line : String) (quantity : String) (w : World) : World × Bool :=
  let w := w.log (.fetch (.change line quantity))
  let attempt : World × Bool :=
    match changeResp with
    | .networkError => (w, false)
    | .http status body =>
      if (Response.http status body).ok then
        match body with
        | none => (w, false)
        | some cart => renderCart numStr cart w
      else (w, false)
  if attempt.2 then attempt
  else
    match fetchShopifyCart fallbackResp attempt.1 with
    | (w, none) => (w, false)
    | (w, some cart) => renderCart numStr cart w

/-- The function `updateCartItemQuantity`; a `null` line number is sent as `"null"`. -/
def updateCartItemQuantity (numStr : ℚ → String) (changeResp fallbackResp : Response)
    (lineNumber : Option String) (newQuantity : JSNum) (w : World) : World × Bool :=
  changeLine numStr changeResp fallbackResp (lineNumber.getD "null")
    (numberToString numStr newQuantity) w

/-- The function `removeFromCart`. -/
def removeFromCart (numStr : ℚ → String) (changeResp fallbackResp : Response)
    (lineNumber : Option String) (w : World) : World × Bool :=
  changeLine numStr changeResp fallbackResp (lineNumber.getD "null")
    (numberToString numStr (.fin 0)) w

/-! ## Row listeners -/

/-- The click listener of a remove button. -/
def removeClick (numStr : ℚ → String) (changeResp fallbackResp : Response)
    (btn : RowButton) (w : World) : World × Bool :=
  removeFromCart numStr changeResp fallbackResp btn.dataItemLine w

/-- The click listener of a plus button; without a quantity input the read throws. -/
def qtyPlusClick (numStr : ℚ → String) (changeResp fallbackResp : Response)
    (btn : RowButton) (w : World) : World × Bool :=
  match btn.qtyInputValue with
  | none => (w, false)
  | some value =>
    let currentQty := parseInt value
    updateCartItemQuantity numStr changeResp fallbackResp btn.dataItemLine
      (JSNum.add currentQty (.fin 1)) w

/-- The click listener of a minus button. -/
def qtyMinusClick (numStr : ℚ → String) (changeResp fallbackResp : Response)
    (btn : RowButton) (w : World) : World × Bool :=
  match btn.qtyInputValue with
  | none => (w, false)
  | some value =>
    let currentQty := parseInt value
    if JSNum.gt currentQty (.fin 1) then
      updateCartItemQuantity numStr changeResp fallbackResp btn.dataItemLine
        (JSNum.sub currentQty (.fin 1)) w
    else (w, true)

/-! ## Notes -/

/-- The click listener of the checkout button; without a notes field the read throws. -/
def checkoutClick (w : World) : World :=
  match w.doc.orderNotes with
  | none => w
  | some notes =>
    if notes ≠ "" then { w.log (.setItem "cartNotes" notes) with cartNotes := some notes }
    else w

/-- An `input` event of the notes field: the field now holds `text`, the pending timer
is cleared and a new one is set to 1000 ms.  A page without the field has no listener. -/
def notesInput (text : String) (w : World) : World :=
  match w.doc.orderNotes with
  | none => w
  | some _ =>
    { w with doc := { w.doc with orderNotes := some text }, notesTimeout := some 1000 }

/-- The callback of the debounce timer: stores the value the field holds when it runs. -/
def notesTimerFired (w : World) : World :=
  let notes := w.doc.orderNotes.getD ""
  { w.log (.setItem "cartNotes" notes) with cartNotes := some notes, notesTimeout := none }

/-- The passing of `ms` milliseconds without an event: a timer that is due runs. -/
def elapse (ms : Nat) (w : World) : World :=
  match w.notesTimeout with
  | none => w
  | some remaining =>
    if remaining ≤ ms then notesTimerFired w
    else { w with notesTimeout := some (remaining - ms) }

/-- A burst of typing: each step is a pause followed by an `input` event with the text
the field then holds. -/
def typeNotes : List (Nat × String) → World → World
  | [], w => w
  | (pause, text) :: rest, w => typeNotes rest (notesInput text (elapse pause w))

/-- A new load of the page: the markup `page` as delivered, no timer, the same storage. -/
def reload (page : Doc) (w : World) : World :=
  { w with doc := page, notesTimeout := none }

/-- The first part of the `load` listener: a stored, non-empty value is put into the
notes field when the page has one. -/
def restoreNotes (w : World) : World :=
  match w.cartNotes with
  | some savedNotes =>
    if savedNotes ≠ "" then
      { w with doc := { w.doc with orderNotes := w.doc.orderNotes.map fun _ => savedNotes } }
    else w
  | none => w

/-- The second part of the `load` listener: the cart is fetched and, when it has at least
one item, rendered; a rejection or a throw in the callback is only logged. -/
def loadCart (numStr : ℚ → String) (cartResp : Response) (w : World) : World :=
  match fetchShopifyCart cartResp w with
  | (w, some (.cart cart)) =>
    match cart.items with
    | some (item :: rest) =>
      updateCartTotals numStr cart (renderCartItems numStr (some (item :: rest)) w)
    | _ => w
  | (w, _) => w

/-- The window `load` listener. -/
def loadListener (numStr : ℚ → String) (cartResp : Response) (w : World) : World :=
  loadCart numStr cartResp (restoreNotes w)

/-! ## Reading a trace -/

/-- The bodies posted to the add endpoint, in order. -/
def addRequests (t : List Event) : List (List AddItem) :=
  t.filterMap fun e =>
    match e with
    | .fetch (.add items) => some items
    | _ => none

/-- The line and quantity of the change requests, in order. -/
def changeRequests (t : List Event) : List (String × String) :=
  t.filterMap fun e =>
    match e with
    | .fetch (.change line quantity) => some (line, quantity)
    | _ => none

/-- The item lists handed to `renderCartItems`, in order. -/
def renderCalls (t : List Event) : List (Option (List Item)) :=
  t.filterMap fun e =>
    match e with
    | .renderCartItems items => some items
    | _ => none

/-- The add request a click on a button issues: one when the button has a form. -/
def postedAdd (form : Option Form) : List Event :=
  match form with
  | some f => [.fetch (.add (addBody f))]
  | none => []

/-- The cart a response delivers: a success status with a JSON object as body. -/
def fetchedCart : Response → Option Cart
  | .http status (some (.cart c)) =>
    if (Response.http status (some (.cart c))).ok then some c else none
  | _ => none

/-! ## Reference formatting -/

/-- The amount of `cents` minor units written in major units with exactly two digits
after the decimal point. -/
def twoDecimals (cents : ℤ) : String :=
  (if cents < 0 then "-" else "") ++ toString (cents.natAbs / 100) ++ "."
    ++ toString (cents.natAbs % 100 / 10) ++ toString (cents.natAbs % 10)

/-- The decimal digits of an integer, with a leading `-` when it is negative. -/
def intToString (q : ℤ) : String :=
  (if q < 0 then "-" else "") ++ toString q.natAbs

/-! ## Digits -/

theorem toDigitsCore_append (fuel : Nat) : ∀ (n : Nat) (ds : List Char),
    Nat.toDigitsCore 10 fuel n ds = Nat.toDigitsCore 10 fuel n [] ++ ds := by
  induction fuel with
  | zero => intro n ds; simp [Nat.toDigitsCore]
  | succ f ih =>
    intro n ds
    simp only [Nat.toDigitsCore]
    split_ifs with h
    · simp
    · rw [ih (n / 10) (Nat.digitChar (n % 10) :: ds), ih (n / 10) [Nat.digitChar (n % 10)]]
      simp

theorem toDigitsCore_fuel (f1 : Nat) : ∀ (f2 n : Nat) (ds : List Char), n < f1 → n < f2 →
    Nat.toDigitsCore 10 f1 n ds = Nat.toDigitsCore 10 f2 n ds := by
  induction f1 with
  | zero => intro f2 n ds h; omega
  | succ k ih =>
    intro f2 n ds h1 h2
    cases f2 with
    | zero => omega
    | succ m =>
      simp only [Nat.toDigitsCore]
      split_ifs with h
      · rfl
      · exact ih m (n / 10) _ (by omega) (by omega)

theorem toDigits_lt_ten (n : Nat) (h : n < 10) : Nat.toDigits 10 n = [Nat.digitChar n] := by
  unfold Nat.toDigits
  simp only [Nat.toDigitsCore]
  have h1 : n / 10 = 0 := by omega
  have h2 : n % 10 = n := by omega
  simp [h1, h2]

theorem toDigits_ge_ten (n : Nat) (h : 10 ≤ n) :
    Nat.toDigits 10 n = Nat.toDigits 10 (n / 10) ++ [Nat.digitChar (n % 10)] := by
  have h1 : n / 10 ≠ 0 := by omega
  have e : Nat.toDigits 10 n = Nat.toDigitsCore 10 n (n / 10) [Nat.digitChar (n % 10)] := by
    show Nat.toDigitsCore 10 (n + 1) n [] = _
    rw [Nat.toDigitsCore]
    simp [h1]
  rw [e, toDigitsCore_append n (n / 10) [Nat.digitChar (n % 10)],
    toDigitsCore_fuel n (n / 10 + 1) (n / 10) [] (by omega) (by omega)]
  rfl

theorem toString_nat_data (n : Nat) : (toString n).data = Nat.toDigits 10 n := rfl

/-! ## Rounding -/

theorem log2Fuel_pow_le : ∀ (fuel n : Nat), 1 ≤ n → n ≤ fuel → 2 ^ log2Fuel fuel n ≤ n := by
  intro fuel
  induction fuel with
  | zero => intro n h1 h2; omega
  | succ f ih =>
    intro n h1 h2
    unfold log2Fuel
    split_ifs with h
    · simpa using h1
    · have := ih (n / 2) (by omega) (by omega)
      rw [pow_succ]
      omega

theorem lt_log2Fuel_pow : ∀ (fuel n : Nat), n ≤ fuel → n < 2 ^ (log2Fuel fuel n + 1) := by
  intro fuel
  induction fuel with
  | zero => intro n h; simp [log2Fuel]; omega
  | succ f ih =>
    intro n h2
    unfold log2Fuel
    split_ifs with h
    · simpa using h
    · have := ih (n / 2) (by omega)
      rw [pow_succ]
      omega

theorem floorLog2_zpow_le (x : ℚ) (hx : x ≠ 0) : (2 : ℚ) ^ floorLog2 x ≤ |x| := by
  unfold floorLog2
  simp only
  split_ifs with h
  · exact h
  · set a := x.num.natAbs with ha
    set b := x.den with hb
    have ha1 : 1 ≤ a := by
      have : x.num ≠ 0 := Rat.num_ne_zero.mpr hx
      exact Nat.one_le_iff_ne_zero.mpr (Int.natAbs_ne_zero.mpr this)
    have hb1 : 1 ≤ b := x.den_pos
    have h1 : ((2 : ℚ)) ^ (log2Fuel a a) ≤ (a : ℚ) := by
      exact_mod_cast log2Fuel_pow_le a a ha1 le_rfl
    have h2 : (b : ℚ) < (2 : ℚ) ^ (log2Fuel b b + 1) := by
      exact_mod_cast lt_log2Fuel_pow b b le_rfl
    have hx' : |x| = (a : ℚ) / (b : ℚ) := by
      conv_lhs => rw [← Rat.num_div_den x]
      rw [abs_div, ha, Nat.cast_natAbs, hb]
      simp
    rw [hx']
    have hbpos : (0 : ℚ) < b := by exact_mod_cast hb1
    have e : ((log2Fuel a a : ℤ) - (log2Fuel b b : ℤ) - 1) = (log2Fuel a a : ℤ) - ((log2Fuel b b + 1 : ℕ) : ℤ) := by
      push_cast; ring
    rw [e, zpow_sub₀ (by norm_num : (2 : ℚ) ≠ 0), zpow_natCast, zpow_natCast]
    apply div_le_div₀ (by positivity) h1 hbpos h2.le

theorem lt_floorLog2_zpow (x : ℚ) : |x| < (2 : ℚ) ^ (floorLog2 x + 1) := by
  unfold floorLog2
  simp only
  split_ifs with h
  · set a := x.num.natAbs with ha
    set b := x.den with hb
    have hb1 : 1 ≤ b := x.den_pos
    have h1 : (a : ℚ) < (2 : ℚ) ^ (log2Fuel a a + 1) := by
      exact_mod_cast lt_log2Fuel_pow a a le_rfl
    have h2 : (2 : ℚ) ^ (log2Fuel b b) ≤ (b : ℚ) := by
      exact_mod_cast log2Fuel_pow_le b b hb1 le_rfl
    have hx' : |x| = (a : ℚ) / (b : ℚ) := by
      conv_lhs => rw [← Rat.num_div_den x]
      rw [abs_div, ha, Nat.cast_natAbs, hb]
      simp
    rw [hx']
    have hbpos : (0 : ℚ) < b := by exact_mod_cast hb1
    have e : ((log2Fuel a a : ℤ) - (log2Fuel b b : ℤ) + 1)
        = ((log2Fuel a a + 1 : ℕ) : ℤ) - ((log2Fuel b b : ℕ) : ℤ) := by
      push_cast; ring
    rw [e, zpow_sub₀ (by norm_num : (2 : ℚ) ≠ 0), zpow_natCast, zpow_natCast]
    have hpos : (0 : ℚ) < (2 : ℚ) ^ (log2Fuel b b) := by positivity
    rw [div_lt_div_iff₀ hbpos hpos]
    calc (a : ℚ) * (2 : ℚ) ^ (log2Fuel b b)
        ≤ (a : ℚ) * (b : ℚ) := by
          apply mul_le_mul_of_nonneg_left h2
          exact_mod_cast Nat.zero_le a
      _ < (2 : ℚ) ^ (log2Fuel a a + 1) * (b : ℚ) := by
          apply mul_lt_mul_of_pos_right h1 hbpos
  · rw [sub_add_cancel]
    exact not_le.mp h

theorem floorLog2_zero : floorLog2 0 = -1 := by decide!

theorem binade_le (x : ℚ) (E : ℤ) (hE : 0 ≤ E) (hx : |x| < (2 : ℚ) ^ (E + 1)) : binade x ≤ E := by
  unfold binade
  apply max_le _ (by omega)
  by_cases h0 : x = 0
  · subst h0; rw [floorLog2_zero]; omega
  · have := lt_of_le_of_lt (floorLog2_zpow_le x h0) hx
    rw [zpow_lt_zpow_iff_right₀ (by norm_num)] at this
    omega

theorem roundHalfEven_err (y : ℚ) : |(roundHalfEven y : ℚ) - y| ≤ 1 / 2 := by
  unfold roundHalfEven
  have h1 := Int.floor_le y
  have h2 := Int.lt_floor_add_one y
  simp only
  rw [abs_le]
  split_ifs <;> push_cast <;> constructor <;> linarith

theorem roundHalfEven_intCast (z : ℤ) : roundHalfEven (z : ℚ) = z := by
  simp [roundHalfEven]

theorem roundToDouble_err (x : ℚ) (E : ℤ) (hE : 0 ≤ E) (hE2 : E ≤ 1022)
    (hx : |x| < (2 : ℚ) ^ (E + 1)) :
    ∃ v, roundToDouble x = JSNum.fin v ∧ |v - x| ≤ (2 : ℚ) ^ (E - 53) := by
  have hb := binade_le x E hE hx
  set u : ℚ := (2 : ℚ) ^ (binade x - 52) with hu
  have hupos : 0 < u := by positivity
  have hule : u ≤ (2 : ℚ) ^ (E - 52) := zpow_le_zpow_right₀ (by norm_num) (by omega)
  set v : ℚ := roundHalfEven (x / u) * u with hv
  have herr : |v - x| ≤ (2 : ℚ) ^ (E - 53) := by
    have h := roundHalfEven_err (x / u)
    have e1 : v - x = ((roundHalfEven (x / u) : ℚ) - x / u) * u := by
      rw [hv]; field_simp
    rw [e1, abs_mul, abs_of_pos hupos]
    have e2 : (2 : ℚ) ^ (E - 53) = 1 / 2 * (2 : ℚ) ^ (E - 52) := by
      rw [show E - 53 = (E - 52) - 1 by ring, zpow_sub_one₀ (by norm_num)]
      ring
    rw [e2]
    exact mul_le_mul h hule hupos.le (by norm_num)
  refine ⟨v, ?_, herr⟩
  have hlt : ¬ ((2 : ℚ) ^ (1024 : ℕ) ≤ |v|) := by
    rw [not_le]
    have h1 : |v| ≤ |v - x| + |x| := by
      have := abs_add (v - x) x
      simpa using this
    have h2 : (2 : ℚ) ^ (E - 53) ≤ (2 : ℚ) ^ (E + 1) := zpow_le_zpow_right₀ (by norm_num) (by omega)
    have h3 : (2 : ℚ) ^ ((E + 1) + 1) = (2 : ℚ) ^ (E + 1) * 2 :=
      zpow_add_one₀ (by norm_num) (E + 1)
    have h4 : (2 : ℚ) ^ ((E + 1) + 1) ≤ (2 : ℚ) ^ ((1024 : ℕ) : ℤ) :=
      zpow_le_zpow_right₀ (by norm_num) (by push_cast; omega)
    rw [zpow_natCast] at h4
    linarith
  show (if (2 : ℚ) ^ (1024 : ℕ) ≤ |v| then JSNum.inf (decide (x < 0)) else JSNum.fin v) = JSNum.fin v
  rw [if_neg hlt]

theorem roundToDouble_int (n : ℤ) (hn : |n| < 2 ^ 53) : roundToDouble (n : ℚ) = JSNum.fin n := by
  have hx : |(n : ℚ)| < (2 : ℚ) ^ ((52 : ℤ) + 1) := by
    have : ((|n| : ℤ) : ℚ) < ((2 ^ 53 : ℤ) : ℚ) := by exact_mod_cast hn
    rw [Int.cast_abs] at this
    norm_num at this ⊢
    exact this
  have hb := binade_le (n : ℚ) 52 (by norm_num) hx
  have hb2 : -1022 ≤ binade (n : ℚ) := le_max_right _ _
  obtain ⟨j, hj⟩ : ∃ j : ℕ, binade (n : ℚ) - 52 = -(j : ℤ) := ⟨(52 - binade (n : ℚ)).toNat, by omega⟩
  have hu : (2 : ℚ) ^ (binade (n : ℚ) - 52) = 1 / (2 : ℚ) ^ j := by
    rw [hj, zpow_neg, zpow_natCast]; simp
  have hq : (n : ℚ) / (1 / (2 : ℚ) ^ j) = ((n * 2 ^ j : ℤ) : ℚ) := by
    push_cast; field_simp
  have hv : ((roundHalfEven ((n : ℚ) / (1 / (2 : ℚ) ^ j)) : ℤ) : ℚ) * (1 / (2 : ℚ) ^ j) = n := by
    rw [hq, roundHalfEven_intCast]; push_cast; field_simp
  unfold roundToDouble
  simp only [hu, hv]
  rw [if_neg]
  rw [not_le]
  have h4 : (2 : ℚ) ^ ((52 : ℤ) + 1) ≤ (2 : ℚ) ^ ((1024 : ℕ) : ℤ) :=
    zpow_le_zpow_right₀ (by norm_num) (by norm_num)
  rw [zpow_natCast] at h4
  linarith

/-! ## Layout of `toFixed(2)` -/

theorem toDigits_ne_nil (n : Nat) : Nat.toDigits 10 n ≠ [] := by
  by_cases h : n < 10
  · rw [toDigits_lt_ten n h]; simp
  · rw [toDigits_ge_ten n (by omega)]; simp

theorem fixedLayout (n : Nat) :
    String.mk
        ((if (Nat.toDigits 10 n).length ≤ 2 then
            List.replicate (3 - (Nat.toDigits 10 n).length) '0' ++ Nat.toDigits 10 n
          else Nat.toDigits 10 n).take
          ((if (Nat.toDigits 10 n).length ≤ 2 then
            List.replicate (3 - (Nat.toDigits 10 n).length) '0' ++ Nat.toDigits 10 n
          else Nat.toDigits 10 n).length - 2))
      ++ "." ++
      String.mk
        ((if (Nat.toDigits 10 n).length ≤ 2 then
            List.replicate (3 - (Nat.toDigits 10 n).length) '0' ++ Nat.toDigits 10 n
          else Nat.toDigits 10 n).drop
          ((if (Nat.toDigits 10 n).length ≤ 2 then
            List.replicate (3 - (Nat.toDigits 10 n).length) '0' ++ Nat.toDigits 10 n
          else Nat.toDigits 10 n).length - 2))
      = toString (n / 100) ++ "." ++ toString (n % 100 / 10) ++ toString (n % 10) := by
  apply String.ext
  simp only [String.data_append, toString_nat_data]
  by_cases h1 : n < 10
  · have e0 : n / 100 = 0 := by omega
    have e1 : n % 100 / 10 = 0 := by omega
    have e2 : n % 10 = n := by omega
    rw [e0, e1, e2, toDigits_lt_ten n h1, toDigits_lt_ten 0 (by norm_num)]
    rfl
  · by_cases h2 : n < 100
    · have e0 : n / 100 = 0 := by omega
      have e1 : n % 100 / 10 = n / 10 := by omega
      rw [e0, e1, toDigits_ge_ten n (by omega), toDigits_lt_ten (n / 10) (by omega),
        toDigits_lt_ten 0 (by norm_num), toDigits_lt_ten (n % 10) (by omega)]
      rfl
    · have e1 : n % 100 / 10 = n / 10 % 10 := by omega
      have e2 : n / 10 / 10 = n / 100 := by omega
      have hne := toDigits_ne_nil (n / 100)
      have hlen : 1 ≤ (Nat.toDigits 10 (n / 100)).length := by
        cases hd : Nat.toDigits 10 (n / 100) with
        | nil => exact absurd hd hne
        | cons a l => simp
      rw [e1, toDigits_ge_ten n (by omega), toDigits_ge_ten (n / 10) (by omega), e2,
        toDigits_lt_ten (n / 10 % 10) (by omega), toDigits_lt_ten (n % 10) (by omega)]
      have hl : ¬ ((Nat.toDigits 10 (n / 100) ++ [(n / 10 % 10).digitChar]
          ++ [(n % 10).digitChar]).length ≤ 2) := by
        simp only [List.length_append, List.length_singleton]; omega
      rw [if_neg hl]
      have hk : (Nat.toDigits 10 (n / 100) ++ [(n / 10 % 10).digitChar]
          ++ [(n % 10).digitChar]).length - 2 = (Nat.toDigits 10 (n / 100)).length := by
        simp only [List.length_append, List.length_singleton]; omega
      rw [hk]
      simp only [List.append_assoc]
      rw [List.take_left, List.drop_left]

/-! ## `toFixed(2)` of a value close to a whole number of cents -/

theorem toFixed2_of_close (numStr : ℚ → String) (v : ℚ) (k : ℤ)
    (hclose : |100 * v - k| < 1 / 2) (h0 : k = 0 → v = 0) (hv : |v| < (10 : ℚ) ^ (21 : ℕ)) :
    toFixed2 numStr (.fin v) = twoDecimals k := by
  have hcl := abs_lt.mp hclose
  have hsign : v < 0 ↔ k < 0 := by
    constructor
    · intro hneg
      by_contra hk
      have hk' : (0 : ℚ) ≤ k := by exact_mod_cast not_lt.mp hk
      rcases eq_or_lt_of_le (not_lt.mp hk) with h | h
      · have := h0 h.symm; linarith
      · have : (1 : ℚ) ≤ k := by exact_mod_cast h
        linarith [hcl.1]
    · intro hk
      have : (k : ℚ) ≤ -1 := by exact_mod_cast Int.le_sub_one_of_lt hk
      linarith [hcl.2]
  have hn : (⌊|v| * 100 + 1 / 2⌋).toNat = k.natAbs := by
    have habs : |(|100 * v| - |(k : ℚ)|)| < 1 / 2 :=
      lt_of_le_of_lt (abs_abs_sub_abs_le _ _) hclose
    have h100 : |100 * v| = |v| * 100 := by rw [abs_mul]; norm_num; ring
    rw [h100] at habs
    have habs' := abs_lt.mp habs
    have hfl : ⌊|v| * 100 + 1 / 2⌋ = |k| := by
      rw [Int.floor_eq_iff]
      push_cast
      constructor <;> linarith [habs'.1, habs'.2]
    rw [hfl, Int.abs_eq_natAbs, Int.toNat_natCast]
  unfold toFixed2 twoDecimals
  simp only
  rw [if_neg (not_le.mpr hv), hn]
  have hlay := fixedLayout k.natAbs
  simp only [toString_nat_data]
  by_cases hk : k < 0
  · rw [if_pos (hsign.mpr hk), if_pos hk]
    simp only [String.append_assoc] at hlay ⊢
    rw [hlay]
  · rw [if_neg (fun h => hk (hsign.mp h)), if_neg hk]
    simp only [String.append_assoc] at hlay ⊢
    rw [hlay]

theorem roundToDouble_zero : roundToDouble 0 = JSNum.fin 0 := by decide!

theorem div100_close (a : ℤ) (E : ℤ) (hE : 0 ≤ E) (hE2 : E ≤ 1022)
    (h : |(a : ℚ)| < 100 * (2 : ℚ) ^ (E + 1)) :
    ∃ A, JSNum.div100 (.fin a) = .fin A ∧ |A - (a : ℚ) / 100| ≤ (2 : ℚ) ^ (E - 53)
      ∧ (a = 0 → A = 0) := by
  by_cases ha : a = 0
  · subst ha
    refine ⟨0, ?_, ?_, fun _ => rfl⟩
    · show roundToDouble ((0 : ℤ) / 100) = _
      simp [roundToDouble_zero]
    · simp; positivity
  · have hx : |(a : ℚ) / 100| < (2 : ℚ) ^ (E + 1) := by
      rw [abs_div, div_lt_iff₀ (by norm_num)]
      norm_num
      linarith
    obtain ⟨A, hA, herr⟩ := roundToDouble_err ((a : ℚ) / 100) E hE hE2 hx
    exact ⟨A, hA, herr, fun h => absurd h ha⟩

theorem toFixed2_div100 (numStr : ℚ → String) (a : ℤ) (h : |a| < 100 * 2 ^ 46) :
    toFixed2 numStr (JSNum.div100 (.fin a)) = twoDecimals a := by
  have ha : |(a : ℚ)| < 100 * (2 : ℚ) ^ ((45 : ℤ) + 1) := by
    have : ((|a| : ℤ) : ℚ) < ((100 * 2 ^ 46 : ℤ) : ℚ) := by exact_mod_cast h
    rw [Int.cast_abs] at this
    norm_num at this ⊢
    exact this
  obtain ⟨A, hA, herr, hz⟩ := div100_close a 45 (by norm_num) (by norm_num) ha
  rw [hA]
  have herr' := abs_le.mp herr
  have e8 : (2 : ℚ) ^ ((45 : ℤ) - 53) = 1 / 256 := by norm_num [zpow_neg]
  rw [e8] at herr'
  have ha' := abs_lt.mp ha
  norm_num at ha'
  apply toFixed2_of_close
  · rw [abs_lt]; constructor <;> linarith [herr'.1, herr'.2]
  · exact hz
  · rw [abs_lt]; constructor <;> linarith [herr'.1, herr'.2, ha'.1, ha'.2]

theorem mul_int (p q : ℤ) (h : |p * q| < 2 ^ 53) :
    JSNum.mul (.fin p) (.fin q) = .fin ((p * q : ℤ) : ℚ) := by
  show roundToDouble ((p : ℚ) * q) = _
  rw [← Int.cast_mul]
  exact roundToDouble_int (p * q) h

theorem itemTotalText_eq (numStr : ℚ → String) (item : Item) (p q : ℤ)
    (hp : item.price = .fin p) (hq : item.quantity = .fin q)
    (h : |p * q| < 100 * 2 ^ 46) : itemTotalText numStr item = twoDecimals (p * q) := by
  unfold itemTotalText
  rw [hp, hq, mul_int p q (lt_trans h (by norm_num))]
  exact toFixed2_div100 numStr (p * q) h

theorem sub_div100_close (a b : ℤ) (ha : |a| < 2 ^ 50) (hb : |b| < 2 ^ 50) :
    ∃ D, JSNum.sub (JSNum.div100 (.fin a)) (JSNum.div100 (.fin b)) = .fin D
      ∧ |100 * D - ((a - b : ℤ) : ℚ)| < 1 / 2 ∧ (a - b = 0 → D = 0)
      ∧ |D| < (10 : ℚ) ^ (21 : ℕ) := by
  have cast_bound : ∀ c : ℤ, |c| < 2 ^ 50 → |(c : ℚ)| < 2 ^ 50 := by
    intro c hc
    have : ((|c| : ℤ) : ℚ) < ((2 ^ 50 : ℤ) : ℚ) := by exact_mod_cast hc
    rw [Int.cast_abs] at this
    norm_num at this ⊢
    exact this
  have ha' := cast_bound a ha
  have hb' := cast_bound b hb
  have e10 : (2 : ℚ) ^ ((43 : ℤ) - 53) = 1 / 1024 := by norm_num [zpow_neg]
  obtain ⟨A, hA, hAerr, -⟩ := div100_close a 43 (by norm_num) (by norm_num)
    (lt_trans ha' (by norm_num))
  obtain ⟨B, hB, hBerr, -⟩ := div100_close b 43 (by norm_num) (by norm_num)
    (lt_trans hb' (by norm_num))
  rw [e10] at hAerr hBerr
  rw [hA, hB]
  by_cases hab : a = b
  · subst hab
    have hAB : A = B := by
      have := hA.symm.trans hB
      exact JSNum.fin.inj this
    subst hAB
    refine ⟨0, ?_, ?_, fun _ => rfl, by norm_num⟩
    · show roundToDouble (A - A) = _
      rw [sub_self, roundToDouble_zero]
    · simp
  · have hA2 := abs_le.mp hAerr
    have hB2 := abs_le.mp hBerr
    have ha2 := abs_lt.mp ha'
    have hb2 := abs_lt.mp hb'
    have hx : |A - B| < (2 : ℚ) ^ ((44 : ℤ) + 1) := by
      rw [abs_lt]
      norm_num
      constructor <;> linarith [hA2.1, hA2.2, hB2.1, hB2.2, ha2.1, ha2.2, hb2.1, hb2.2]
    obtain ⟨D, hD, hDerr⟩ := roundToDouble_err (A - B) 44 (by norm_num) (by norm_num) hx
    have e9 : (2 : ℚ) ^ ((44 : ℤ) - 53) = 1 / 512 := by norm_num [zpow_neg]
    rw [e9] at hDerr
    have hD2 := abs_le.mp hDerr
    refine ⟨D, hD, ?_, fun h => absurd (sub_eq_zero.mp h) hab, ?_⟩
    · rw [abs_lt]
      push_cast
      constructor <;> linarith [hA2.1, hA2.2, hB2.1, hB2.2, hD2.1, hD2.2]
    · rw [abs_lt]
      constructor <;>
        linarith [hA2.1, hA2.2, hB2.1, hB2.2, hD2.1, hD2.2, ha2.1, ha2.2, hb2.1, hb2.2]

theorem or_fin_zero (b : ℤ) : JSNum.or (.fin b) (.fin 0) = .fin b := by
  unfold JSNum.or JSNum.truthy
  by_cases h : (b : ℚ) = 0
  · simp [h]
  · simp [h]

theorem taxOrZero_eq (tax : Option ℤ) :
    JSNum.or ((tax.map fun b => JSNum.fin (b : ℚ)).getD .nan) (.fin 0)
      = .fin ((tax.getD 0 : ℤ) : ℚ) := by
  cases tax with
  | none => simp [JSNum.or, JSNum.truthy]
  | some b => simpa using or_fin_zero b

/-! ## `parseInt` of a printed integer -/

theorem digitChar_toNat (d : Nat) (h : d < 10) : (Nat.digitChar d).toNat = 48 + d := by
  interval_cases d <;> rfl

theorem digitValue_digitChar (d : Nat) (h : d < 10) : digitValue 10 (Nat.digitChar d) = some d := by
  interval_cases d <;> rfl

theorem isStrWhiteSpace_digitChar (d : Nat) (h : d < 10) :
    isStrWhiteSpace (Nat.digitChar d) = false := by
  interval_cases d <;> rfl

theorem takeDigits_toDigits : ∀ (n : Nat) (rest : List Char),
    ∃ ds : List Nat, ds ≠ [] ∧ takeDigits 10 (Nat.toDigits 10 n ++ rest) = ds ++ takeDigits 10 rest
      ∧ ∀ acc : Nat, ds.foldl (fun acc d => acc * 10 + d) acc = acc * 10 ^ ds.length + n := by
  intro n
  induction n using Nat.strong_induction_on with
  | _ n ih =>
    intro rest
    by_cases h : n < 10
    · refine ⟨[n], by simp, ?_, ?_⟩
      · rw [toDigits_lt_ten n h]
        simp [takeDigits, digitValue_digitChar n h]
      · intro acc; simp
    · obtain ⟨ds, hne, htake, hval⟩ := ih (n / 10) (by omega) (Nat.digitChar (n % 10) :: rest)
      refine ⟨ds ++ [n % 10], by simp, ?_, ?_⟩
      · rw [toDigits_ge_ten n (by omega), List.append_assoc]
        simp only [List.singleton_append]
        rw [htake]
        simp [takeDigits, digitValue_digitChar (n % 10) (by omega)]
      · intro acc
        rw [List.foldl_append, hval acc]
        simp only [List.foldl_cons, List.foldl_nil, List.length_append, List.length_singleton]
        rw [pow_succ]
        have := Nat.div_add_mod n 10
        nlinarith [this]

theorem toDigits_all_digit (n : Nat) : ∀ c ∈ Nat.toDigits 10 n, ∃ d, d < 10 ∧ c = Nat.digitChar d := by
  induction n using Nat.strong_induction_on with
  | _ n ih =>
    by_cases h : n < 10
    · rw [toDigits_lt_ten n h]
      intro c hc
      simp at hc
      exact ⟨n, h, hc⟩
    · rw [toDigits_ge_ten n (by omega)]
      intro c hc
      rw [List.mem_append] at hc
      rcases hc with hc | hc
      · exact ih (n / 10) (by omega) c hc
      · simp at hc
        exact ⟨n % 10, by omega, hc⟩


theorem digitChar_ne (d : Nat) (h : d < 10) (c : Char) (hc : c.toNat < 48 ∨ 57 < c.toNat) :
    Nat.digitChar d ≠ c := by
  intro e
  have := digitChar_toNat d h
  rw [e] at this
  omega

theorem stripHex_toDigits (n : Nat) : stripHex (Nat.toDigits 10 n) = (10, Nat.toDigits 10 n) := by
  have hall := toDigits_all_digit n
  cases hL : Nat.toDigits 10 n with
  | nil => rfl
  | cons c tl =>
    cases tl with
    | nil => rfl
    | cons d rest =>
      rw [hL] at hall
      obtain ⟨k, hk, hd⟩ := hall d (by simp)
      have h1 : d ≠ 'x' := by rw [hd]; exact digitChar_ne k hk _ (by decide)
      have h2 : d ≠ 'X' := by rw [hd]; exact digitChar_ne k hk _ (by decide)
      simp [stripHex, h1, h2]

theorem parseInt_intToString (q : ℤ) : parseInt (intToString q) = roundToDouble (q : ℚ) := by
  have hall := toDigits_all_digit q.natAbs
  have hne := toDigits_ne_nil q.natAbs
  obtain ⟨ds, hds, htake, hval⟩ := takeDigits_toDigits q.natAbs []
  rw [List.append_nil] at htake
  simp only [takeDigits, List.append_nil] at htake
  have hv : digitsValue 10 ds = q.natAbs := by
    unfold digitsValue
    rw [hval 0]; simp
  cases hL : Nat.toDigits 10 q.natAbs with
  | nil => exact absurd hL hne
  | cons c tl =>
    obtain ⟨k, hk, hc⟩ := hall c (by rw [hL]; simp)
    have hws : isStrWhiteSpace c = false := by rw [hc]; exact isStrWhiteSpace_digitChar k hk
    have hm : c ≠ '-' := by rw [hc]; exact digitChar_ne k hk _ (by decide)
    have hp : c ≠ '+' := by rw [hc]; exact digitChar_ne k hk _ (by decide)
    have hhex := stripHex_toDigits q.natAbs
    rw [hL] at hhex htake
    by_cases hq : q < 0
    · have hdata : (intToString q).data = '-' :: c :: tl := by
        unfold intToString
        rw [if_pos hq, String.data_append, toString_nat_data, hL]
        rfl
      have hcast : (q : ℚ) = -((q.natAbs : ℕ) : ℚ) := by
        have hq' : (q : ℚ) < 0 := by exact_mod_cast hq
        rw [Nat.cast_natAbs, Int.cast_abs, abs_of_neg hq']; ring
      unfold parseInt
      simp only [hdata]
      have hd : List.dropWhile isStrWhiteSpace ('-' :: c :: tl) = '-' :: c :: tl := by
        rw [List.dropWhile_cons_of_neg]; decide
      rw [hd]
      simp only [stripSign, if_true, hhex, htake, if_neg hds, hv, hcast]
    · have hdata : (intToString q).data = c :: tl := by
        unfold intToString
        rw [if_neg hq, String.data_append, toString_nat_data, hL]
        rfl
      have hcast : (q : ℚ) = ((q.natAbs : ℕ) : ℚ) := by
        have hq' : (0 : ℚ) ≤ q := by exact_mod_cast not_lt.mp hq
        rw [Nat.cast_natAbs, Int.cast_abs, abs_of_nonneg hq']
      unfold parseInt
      simp only [hdata]
      have hd : List.dropWhile isStrWhiteSpace (c :: tl) = c :: tl := by
        rw [List.dropWhile_cons_of_neg]; simp [hws]
      rw [hd]
      simp only [stripSign, if_neg hm, if_neg hp, hhex, htake, if_neg hds, hv, hcast]
      simp

/-! ## Whole numbers -/

theorem roundToDouble_int_le (n : ℤ) (hn : |n| ≤ 2 ^ 53) : roundToDouble (n : ℚ) = JSNum.fin n := by
  rcases lt_or_eq_of_le hn with h | h
  · exact roundToDouble_int n h
  · rcases abs_eq (by norm_num : (0 : ℤ) ≤ 2 ^ 53) |>.mp h with h | h
    · subst h; decide!
    · subst h; decide!

theorem numberToString_int (numStr : ℚ → String) (n : ℤ) (hn : |n| ≤ 2 ^ 53) :
    numberToString numStr (.fin (n : ℚ)) = intToString n := by
  have h1 : |(n : ℚ)| ≤ 2 ^ 53 := by
    have : ((|n| : ℤ) : ℚ) ≤ ((2 ^ 53 : ℤ) : ℚ) := by exact_mod_cast hn
    rw [Int.cast_abs] at this
    norm_num at this ⊢
    exact this
  unfold numberToString intToString
  simp only [Rat.den_intCast, Rat.num_intCast, true_and, if_pos h1, Int.cast_lt_zero]

theorem parseInt_int (q : ℤ) (hq : |q| ≤ 2 ^ 53) : parseInt (intToString q) = .fin (q : ℚ) := by
  rw [parseInt_intToString, roundToDouble_int_le q hq]

theorem add_one_int (q : ℤ) (hq : |q + 1| ≤ 2 ^ 53) :
    JSNum.add (.fin (q : ℚ)) (.fin 1) = .fin ((q + 1 : ℤ) : ℚ) := by
  show roundToDouble ((q : ℚ) + 1) = _
  rw [← roundToDouble_int_le (q + 1) hq]
  push_cast; rfl

theorem sub_one_int (q : ℤ) (hq : |q - 1| ≤ 2 ^ 53) :
    JSNum.sub (.fin (q : ℚ)) (.fin 1) = .fin ((q - 1 : ℤ) : ℚ) := by
  show roundToDouble ((q : ℚ) - 1) = _
  rw [← roundToDouble_int_le (q - 1) hq]
  push_cast; rfl

theorem gt_one_int (q : ℤ) : JSNum.gt (.fin (q : ℚ)) (.fin 1) = decide (1 < q) := by
  show decide ((1 : ℚ) < (q : ℚ)) = _
  have : ((1 : ℚ) < (q : ℚ)) ↔ 1 < q := by exact_mod_cast Iff.rfl
  simp [this]

/-! ## Traces of the network operations -/

theorem fetchShopifyCart_of_cart (resp : Response) (c : Cart) (w : World)
    (h : fetchedCart resp = some c) :
    fetchShopifyCart resp w = ({ w with trace := w.trace ++ [.fetch .cart] }, some (.cart c)) := by
  cases resp with
  | networkError => simp [fetchedCart] at h
  | http status body =>
    cases body with
    | none => simp [fetchedCart] at h
    | some j =>
      cases j with
      | null => simp [fetchedCart] at h
      | cart c' =>
        simp only [fetchedCart] at h
        split_ifs at h with hok
        simp only [Option.some.injEq] at h
        subst h
        simp [fetchShopifyCart, World.log, hok]

theorem fetchShopifyCart_of_none (resp : Response) (w : World) (h : fetchedCart resp = none) :
    fetchShopifyCart resp w = ({ w with trace := w.trace ++ [.fetch .cart] }, none)
      ∨ fetchShopifyCart resp w = ({ w with trace := w.trace ++ [.fetch .cart] }, some .null) := by
  cases resp with
  | networkError => left; rfl
  | http status body =>
    cases body with
    | none => left; simp [fetchShopifyCart, World.log]
    | some j =>
      cases j with
      | null =>
        by_cases hok : (Response.http status (some Json.null)).ok
        · right; simp [fetchShopifyCart, World.log, hok]
        · left; simp [fetchShopifyCart, World.log, hok]
      | cart c' =>
        simp only [fetchedCart] at h
        split_ifs at h with hok
        left; simp [fetchShopifyCart, World.log, hok]

theorem fetchedCart_of_not_ok (resp : Response) (h : resp.ok = false) :
    fetchedCart resp = none := by
  cases resp with
  | networkError => rfl
  | http status body =>
    cases body with
    | none => rfl
    | some j =>
      cases j with
      | null => rfl
      | cart c => simp [fetchedCart, h]

/-- The fallback of a change request that delivers no cart. -/
theorem changeLine_of_failure (numStr : ℚ → String) (changeResp fallbackResp : Response)
    (line qty : String) (w : World) (hfail : fetchedCart changeResp = none) :
    (∀ c, fetchedCart fallbackResp = some c →
      (changeLine numStr changeResp fallbackResp line qty w).1.trace
          = w.trace ++ [.fetch (.change line qty), .fetch .cart, .renderCartItems c.items,
              .updateCartTotals c]
        ∧ (changeLine numStr changeResp fallbackResp line qty w).1.doc
          = updateCartTotalsDoc numStr c (renderCartItemsDoc numStr c.items w.doc)
        ∧ (changeLine numStr changeResp fallbackResp line qty w).2 = true)
    ∧ (fetchedCart fallbackResp = none →
      (changeLine numStr changeResp fallbackResp line qty w).1.trace
          = w.trace ++ [.fetch (.change line qty), .fetch .cart]
        ∧ (changeLine numStr changeResp fallbackResp line qty w).1.doc = w.doc
        ∧ (changeLine numStr changeResp fallbackResp line qty w).2 = false) := by
  have hattempt : ∀ fr, changeLine numStr changeResp fr line qty w
      = match fetchShopifyCart fr (w.log (.fetch (.change line qty))) with
        | (w, none) => (w, false)
        | (w, some cart) => renderCart numStr cart w := by
    intro fr
    cases changeResp with
    | networkError => simp [changeLine]
    | http status body =>
      cases body with
      | none => simp [changeLine]
      | some j =>
        cases j with
        | null => simp [changeLine, renderCart]
        | cart c =>
          have hok : (Response.http status (some (Json.cart c))).ok = false := by
            simp only [fetchedCart] at hfail
            split_ifs at hfail with h
            simpa using h
          simp [changeLine, hok]
  constructor
  · intro c hc
    rw [hattempt, fetchShopifyCart_of_cart _ c _ hc]
    simp [renderCart, updateCartTotals, renderCartItems, World.log]
  · intro hn
    rw [hattempt]
    rcases fetchShopifyCart_of_none fallbackResp (w.log (.fetch (.change line qty))) hn with h | h
    · rw [h]; simp [World.log]
    · rw [h]; simp [renderCart, World.log]

theorem changeLine_of_success (numStr : ℚ → String) (changeResp fallbackResp : Response)
    (line qty : String) (w : World) (c : Cart) (hok : fetchedCart changeResp = some c) :
    (changeLine numStr changeResp fallbackResp line qty w).1.trace
        = w.trace ++ [.fetch (.change line qty), .renderCartItems c.items, .updateCartTotals c]
      ∧ (changeLine numStr changeResp fallbackResp line qty w).1.doc
        = updateCartTotalsDoc numStr c (renderCartItemsDoc numStr c.items w.doc)
      ∧ (changeLine numStr changeResp fallbackResp line qty w).2 = true := by
  cases changeResp with
  | networkError => simp [fetchedCart] at hok
  | http status body =>
    cases body with
    | none => simp [fetchedCart] at hok
    | some j =>
      cases j with
      | null => simp [fetchedCart] at hok
      | cart c' =>
        simp only [fetchedCart] at hok
        split_ifs at hok with h
        simp only [Option.some.injEq] at hok
        subst hok
        simp [changeLine, h, renderCart, updateCartTotals, renderCartItems, World.log]

theorem changeRequests_changeLine (numStr : ℚ → String) (changeResp fallbackResp : Response)
    (line qty : String) (w : World) :
    changeRequests (changeLine numStr changeResp fallbackResp line qty w).1.trace
      = changeRequests w.trace ++ [(line, qty)] := by
  cases h : fetchedCart changeResp with
  | some c =>
    rw [(changeLine_of_success numStr changeResp fallbackResp line qty w c h).1]
    simp [changeRequests, List.filterMap_append]
  | none =>
    have hf := changeLine_of_failure numStr changeResp fallbackResp line qty w h
    cases h2 : fetchedCart fallbackResp with
    | some c =>
      rw [(hf.1 c h2).1]
      simp [changeRequests, List.filterMap_append]
    | none =>
      rw [(hf.2 h2).1]
      simp [changeRequests, List.filterMap_append]

/-- The requests, renders and alert of `handleAddToCart`, and the page it leaves. -/
theorem handleAddToCart_world (numStr : ℚ → String) (addResp cartResp : Response)
    (b : Button) (w : World) :
    (handleAddToCart numStr addResp cartResp b w).2.trace
        = w.trace ++ postedAdd b.form
          ++ (if b.form.isSome ∧ addResp = .networkError then
                [Event.alert "Error adding item to cart. Please try again."]
              else
                match fetchedCart cartResp with
                | some c =>
                  [.fetch .cart, .renderCartItems c.items, .updateCartTotals c, .openCartSlider]
                | none =>
                  [.fetch .cart, .alert "Error adding item to cart. Please try again."])
      ∧ (handleAddToCart numStr addResp cartResp b w).2.doc
        = (if b.form.isSome ∧ addResp = .networkError then w.doc
           else
             match fetchedCart cartResp with
             | some c =>
               (openCartSlider (updateCartTotals numStr c
                 (renderCartItems numStr c.items w))).doc
             | none => w.doc) := by
  unfold handleAddToCart handleAddToCartTry postedAdd
  cases hform : b.form with
  | some f =>
    cases addResp with
    | networkError => simp [World.log]
    | http status body =>
      cases hc : fetchedCart cartResp with
      | some c =>
        simp [fetchShopifyCart_of_cart cartResp c _ hc, renderCart, World.log, openCartSlider,
          updateCartTotals, renderCartItems]
      | none =>
        rcases fetchShopifyCart_of_none cartResp (w.log (.fetch (.add (addBody f)))) hc
          with h | h
        · simp only [World.log] at h
          simp [h, World.log]
        · simp only [World.log] at h
          simp [h, World.log, renderCart]
  | none =>
    cases hc : fetchedCart cartResp with
    | some c =>
      simp [fetchShopifyCart_of_cart cartResp c _ hc, renderCart, World.log, openCartSlider,
        updateCartTotals, renderCartItems]
    | none =>
      rcases fetchShopifyCart_of_none cartResp w hc with h | h
      · simp [h, World.log]
      · simp [h, World.log, renderCart]

theorem handleAddToCart_button (numStr : ℚ → String) (addResp cartResp : Response)
    (b : Button) (w : World) :
    (handleAddToCart numStr addResp cartResp b w).1 = { b with disabled := false } := rfl

/-! ## Cards -/

theorem itemCards_length (numStr : ℚ → String) (items : List Item) :
    ∀ first, (itemCards numStr first items).length = items.length := by
  induction items with
  | nil => intro first; rfl
  | cons item rest ih => intro first; simp [itemCards, ih]

theorem itemCards_getElem (numStr : ℚ → String) (items : List Item) :
    ∀ (first i : Nat), (itemCards numStr first items)[i]?
      = (items[i]?).map (itemCard numStr (first + i)) := by
  induction items with
  | nil => intro first i; simp [itemCards]
  | cons item rest ih =>
    intro first i
    cases i with
    | zero => simp only [itemCards, List.getElem?_cons_zero, Option.map_some', Nat.add_zero]
    | succ j =>
      simp only [itemCards, List.getElem?_cons_succ]
      rw [ih (first + 1) j, show first + 1 + j = first + (j + 1) by omega]

/-! ## Notes and the debounce timer -/

theorem typeNotes_append (steps : List (Nat × String)) (pause : Nat) (t : String) :
    ∀ w, typeNotes (steps ++ [(pause, t)]) w = notesInput t (elapse pause (typeNotes steps w)) := by
  induction steps with
  | nil => intro w; rfl
  | cons s rest ih => intro w; simp only [List.cons_append, typeNotes]; exact ih _

theorem elapse_doc (ms : Nat) (w : World) : (elapse ms w).doc = w.doc := by
  unfold elapse
  cases w.notesTimeout with
  | none => rfl
  | some r => by_cases h : r ≤ ms <;> simp [h, notesTimerFired, World.log]

theorem notesInput_isSome (t : String) (w : World) (h : w.doc.orderNotes.isSome) :
    (notesInput t w).doc.orderNotes = some t ∧ (notesInput t w).notesTimeout = some 1000
      ∧ (notesInput t w).trace = w.trace ∧ (notesInput t w).cartNotes = w.cartNotes := by
  obtain ⟨v, hv⟩ := Option.isSome_iff_exists.mp h
  simp [notesInput, hv]

theorem typeNotes_isSome (steps : List (Nat × String)) :
    ∀ w, w.doc.orderNotes.isSome → (typeNotes steps w).doc.orderNotes.isSome := by
  induction steps with
  | nil => intro w h; exact h
  | cons s rest ih =>
    intro w h
    simp only [typeNotes]
    apply ih
    have h' : (elapse s.1 w).doc.orderNotes.isSome := by rw [elapse_doc]; exact h
    rw [(notesInput_isSome s.2 _ h').1]; rfl

theorem typeNotes_quiet (steps : List (Nat × String)) :
    ∀ w, w.doc.orderNotes.isSome → (w.notesTimeout = none ∨ w.notesTimeout = some 1000) →
      (∀ s ∈ steps, s.1 < 1000) →
      (typeNotes steps w).trace = w.trace
        ∧ ((typeNotes steps w).notesTimeout = none
            ∨ (typeNotes steps w).notesTimeout = some 1000) := by
  induction steps with
  | nil => intro w _ ht _; exact ⟨rfl, ht⟩
  | cons s rest ih =>
    intro w hf ht hp
    simp only [typeNotes]
    have hs : s.1 < 1000 := hp s (by simp)
    have hel : (elapse s.1 w).trace = w.trace := by
      unfold elapse
      rcases ht with h | h
      · rw [h]
      · rw [h]
        have : ¬ (1000 ≤ s.1) := by omega
        simp [this]
    have hf' : (elapse s.1 w).doc.orderNotes.isSome := by rw [elapse_doc]; exact hf
    have hin := notesInput_isSome s.2 _ hf'
    have := ih (notesInput s.2 (elapse s.1 w)) (by rw [hin.1]; rfl) (Or.inr hin.2.1)
      (fun x hx => hp x (by simp [hx]))
    rw [this.1, hin.2.2.1, hel]
    exact ⟨rfl, this.2⟩

theorem elapse_fires (d : Nat) (w : World) (t : String) (hd : 1000 ≤ d)
    (hn : w.doc.orderNotes = some t) (ht : w.notesTimeout = some 1000) :
    elapse d w = { w with cartNotes := some t, notesTimeout := none,
                          trace := w.trace ++ [.setItem "cartNotes" t] } := by
  simp [elapse, ht, hd, notesTimerFired, hn, World.log]

theorem loadCart_orderNotes (numStr : ℚ → String) (cartResp : Response) (w0 : World) :
    (loadCart numStr cartResp w0).doc.orderNotes = w0.doc.orderNotes := by
  unfold loadCart
  cases hc : fetchedCart cartResp with
  | some c =>
    rw [fetchShopifyCart_of_cart cartResp c w0 hc]
    cases hi : c.items with
    | none => simp [hi]
    | some l =>
      cases l with
      | nil => simp [hi]
      | cons item rest =>
        simp only [hi, renderCartItems, updateCartTotals, renderCartItemsDoc,
          updateCartTotalsDoc]
        cases w0.doc.cartItems <;> rfl
  | none =>
    rcases fetchShopifyCart_of_none cartResp w0 hc with h | h <;> rw [h]

theorem loadListener_orderNotes (numStr : ℚ → String) (cartResp : Response) (w : World) :
    (loadListener numStr cartResp w).doc.orderNotes = (restoreNotes w).doc.orderNotes :=
  loadCart_orderNotes numStr cartResp (restoreNotes w)

/-! ## Markup of a card -/

set_option maxRecDepth 100000 in
theorem itemCard_markup (numStr : ℚ → String) (n : Nat) (item : Item) :
    itemCard numStr n item
      = "\n        <div class=\"cart-item\" data-item-line=\""
      ++ toString (n)
      ++ "\" data-item-key=\""
      ++ (item).key
      ++ "\">\n          <div class=\"item-header\">\n            <h4>"
      ++ (item).title
      ++ "</h4>\n            <button class=\"remove-btn\" data-item-line=\""
      ++ toString (n)
      ++ "\" type=\"button\" title=\"Remove\">×</button>\n          </div>\n          \n          "
      ++ (if propertiesHTML (item) ≠ "" then
            "<div class=\"item-properties\">" ++ propertiesHTML (item) ++ "</div>"
          else "")
      ++ "\n          \n          <div class=\"item-footer\">\n            <div class=\"quantity-control\">\n              <button class=\"qty-btn qty-minus\" data-item-line=\""
      ++ toString (n)
      ++ "\" type=\"button\">−</button>\n              <input type=\"number\" class=\"qty-input\" value=\""
      ++ numberToString numStr (item).quantity
      ++ "\" readonly>\n              <button class=\"qty-btn qty-plus\" data-item-line=\""
      ++ toString (n)
      ++ "\" type=\"button\">+</button>\n            </div>\n            <span class=\"item-price\">"
      ++ itemTotalText numStr item
      ++ "</span>\n          </div>\n        </div>\n      " := by
  apply String.ext
  simp only [itemCard, cardBody, cardOpen, cardClose, removeButtonHTML, minusButtonHTML,
    plusButtonHTML, String.data_append, List.append_assoc]
  rfl

theorem renderCartItems_cards (numStr : ℚ → String) (w : World) (old : String)
    (items : List Item) (hc : w.doc.cartItems = some old) (hne : items ≠ []) :
    (renderCartItems numStr (some items) w).doc.cartItems
      = some (String.join (itemCards numStr 1 items)) := by
  cases items with
  | nil => exact absurd rfl hne
  | cons item rest => simp [renderCartItems, renderCartItemsDoc, hc]

theorem itemCards_get (numStr : ℚ → String) (items : List Item) (i : Nat)
    (h : i < items.length) :
    (itemCards numStr 1 items)[i]? = some (itemCard numStr (i + 1) (items.get ⟨i, h⟩)) := by
  rw [itemCards_getElem numStr items 1 i, List.getElem?_eq_getElem h, Option.map_some',
    Nat.add_comm 1 i]
  rfl

theorem startsWith_append (p post : List Char) : startsWith (p ++ post) p = true := by
  induction p with
  | nil => cases post <;> rfl
  | cons c ps ih => simp [startsWith, ih]

theorem includesChars_append (pre p post : List Char) :
    includesChars (pre ++ (p ++ post)) p = true := by
  induction pre with
  | nil =>
    cases hl : p ++ post with
    | nil =>
      have : p = [] := (List.append_eq_nil.mp hl).1
      simp [includesChars, this]
    | cons c cs =>
      simp only [List.nil_append, hl, includesChars]
      rw [← hl, startsWith_append]
      rfl
  | cons c pre ih =>
    show (startsWith (c :: (pre ++ (p ++ post))) p
      || includesChars (pre ++ (p ++ post)) p) = true
    rw [ih, Bool.or_true]

theorem includes_of_eq (s pre pat post : String) (h : s = pre ++ pat ++ post) :
    includes s pat = true := by
  subst h
  unfold includes
  simp only [String.data_append, List.append_assoc]
  exact includesChars_append _ _ _

/-! ## C1: cards of the rendered cart -/

/-- C1: with the `cartItems` container present, `renderCartItems` on `N ≥ 1` items writes
the concatenation of exactly `N` cards, in the order of the items; the card of the item
at index `i` is the `cart-item` element with `data-item-line` = `i + 1` and
`data-item-key` = the item's key, whose remove, minus and plus buttons carry the same
`data-item-line` = `i + 1`.  On an empty or absent sequence it writes the empty-state
markup, in which no `cart-item` element occurs. -/
theorem render_cards (numStr : ℚ → String) (w : World) (old : String) (items : List Item)
    (hc : w.doc.cartItems = some old) :
    (items ≠ [] →
        ∃ cards : List String,
          (renderCartItems numStr (some items) w).doc.cartItems = some (String.join cards)
            ∧ cards.length = items.length
            ∧ ∀ (i : Nat) (h : i < items.length),
                cards[i]? = some
                  ("\n        <div class=\"cart-item\" data-item-line=\""
                  ++ toString (i + 1)
                  ++ "\" data-item-key=\""
                  ++ (items.get ⟨i, h⟩).key
                  ++ "\">\n          <div class=\"item-header\">\n            <h4>"
                  ++ (items.get ⟨i, h⟩).title
                  ++ "</h4>\n            <button class=\"remove-btn\" data-item-line=\""
                  ++ toString (i + 1)
                  ++ "\" type=\"button\" title=\"Remove\">×</button>\n          </div>\n          \n          "
                  ++ (if propertiesHTML (items.get ⟨i, h⟩) ≠ "" then
                        "<div class=\"item-properties\">" ++ propertiesHTML (items.get ⟨i, h⟩) ++ "</div>"
                      else "")
                  ++ "\n          \n          <div class=\"item-footer\">\n            <div class=\"quantity-control\">\n              <button class=\"qty-btn qty-minus\" data-item-line=\""
                  ++ toString (i + 1)
                  ++ "\" type=\"button\">−</button>\n              <input type=\"number\" class=\"qty-input\" value=\""
                  ++ numberToString numStr (items.get ⟨i, h⟩).quantity
                  ++ "\" readonly>\n              <button class=\"qty-btn qty-plus\" data-item-line=\""
                  ++ toString (i + 1)
                  ++ "\" type=\"button\">+</button>\n            </div>\n            <span class=\"item-price\">"
                  ++ itemTotalText numStr (items.get ⟨i, h⟩)
                  ++ "</span>\n          </div>\n        </div>\n      "))
      ∧ (renderCartItems numStr (some []) w).doc.cartItems
          = some "\n        <div class=\"empty-cart\">\n          <div class=\"empty-cart-icon\">🛍️</div>\n          <p>Your cart is empty</p>\n        </div>\n      "
      ∧ (renderCartItems numStr none w).doc.cartItems
          = some "\n        <div class=\"empty-cart\">\n          <div class=\"empty-cart-icon\">🛍️</div>\n          <p>Your cart is empty</p>\n        </div>\n      "
      ∧ ∀ pre post : String,
          "\n        <div class=\"empty-cart\">\n          <div class=\"empty-cart-icon\">🛍️</div>\n          <p>Your cart is empty</p>\n        </div>\n      "
            ≠ pre ++ "class=\"cart-item\"" ++ post := by
  refine ⟨?_, ?_, ?_, ?_⟩
  · intro hne
    refine ⟨itemCards numStr 1 items, renderCartItems_cards numStr w old items hc hne,
      itemCards_length numStr items 1, ?_⟩
    intro i h
    rw [itemCards_get numStr items i h, itemCard_markup]
  · simp [renderCartItems, renderCartItemsDoc, hc, emptyCartHTML]
  · simp [renderCartItems, renderCartItemsDoc, hc, emptyCartHTML]
  · intro pre post heq
    have h1 := includes_of_eq _ pre _ post heq
    have h2 : includes "\n        <div class=\"empty-cart\">\n          <div class=\"empty-cart-icon\">🛍️</div>\n          <p>Your cart is empty</p>\n        </div>\n      "
        "class=\"cart-item\"" = false := by decide!
    rw [h2] at h1
    exact Bool.false_ne_true h1

/-- C1 at a cart of two items: two cards, the second with line 2 and key `k2`. -/
theorem render_cards_witness :
    (({ doc := { cartItems := some "", subtotal := none, tax := none, total := none, sliderCart := none, cartOverlay := none, orderNotes := none }, cartNotes := none, notesTimeout := none, trace := [] } : World).doc.cartItems = some ""
      ∧ ([{ key := "k1", title := "Tea", price := .fin 500, quantity := .fin 3, options_with_values := none, properties := none }, { key := "k2", title := "Cup", price := .fin 250, quantity := .fin 1, options_with_values := none, properties := none }] : List Item) ≠ [])
      ∧ ∃ cards : List String,
          (renderCartItems (fun _ => "")
            (some [{ key := "k1", title := "Tea", price := .fin 500, quantity := .fin 3, options_with_values := none, properties := none }, { key := "k2", title := "Cup", price := .fin 250, quantity := .fin 1, options_with_values := none, properties := none }])
            { doc := { cartItems := some "", subtotal := none, tax := none, total := none, sliderCart := none, cartOverlay := none, orderNotes := none }, cartNotes := none, notesTimeout := none, trace := [] }).doc.cartItems = some (String.join cards)
          ∧ cards.length = 2
          ∧ cards[1]? = some "\n        <div class=\"cart-item\" data-item-line=\"2\" data-item-key=\"k2\">\n          <div class=\"item-header\">\n            <h4>Cup</h4>\n            <button class=\"remove-btn\" data-item-line=\"2\" type=\"button\" title=\"Remove\">×</button>\n          </div>\n          \n          \n          \n          <div class=\"item-footer\">\n            <div class=\"quantity-control\">\n              <button class=\"qty-btn qty-minus\" data-item-line=\"2\" type=\"button\">−</button>\n              <input type=\"number\" class=\"qty-input\" value=\"1\" readonly>\n              <button class=\"qty-btn qty-plus\" data-item-line=\"2\" type=\"button\">+</button>\n            </div>\n            <span class=\"item-price\">2.50</span>\n          </div>\n        </div>\n      " := by
  refine ⟨⟨rfl, by decide⟩, ?_⟩
  obtain ⟨cards, h1, h2, h3⟩ := (render_cards (fun _ => "")
    { doc := { cartItems := some "", subtotal := none, tax := none, total := none, sliderCart := none, cartOverlay := none, orderNotes := none }, cartNotes := none, notesTimeout := none, trace := [] } ""
    [{ key := "k1", title := "Tea", price := .fin 500, quantity := .fin 3, options_with_values := none, properties := none }, { key := "k2", title := "Cup", price := .fin 250, quantity := .fin 1, options_with_values := none, properties := none }] rfl).1 (by decide)
  refine ⟨cards, h1, h2, ?_⟩
  rw [h3 1 (by decide)]
  decide!

/-! ## C2: the line total -/

/-- C2 (amended): for every cart handed to `renderCartItems` (container present) and every
line item of it, at index `i`, with integer unit price `p` and integer quantity `q` such
that `|p * q| < 100 * 2 ^ 46`: the container holds one card per item, each the template
text of its item, and the card of the item at index `i` shows in its `item-price` span
`(p * q) / 100` written with exactly two digits after the decimal point. -/
theorem lineTotal_shown (numStr : ℚ → String) (w : World) (old : String) (items : List Item)
    (i : Nat) (h : i < items.length) (p q : ℤ) (hc : w.doc.cartItems = some old)
    (hp : (items.get ⟨i, h⟩).price = .fin p) (hq : (items.get ⟨i, h⟩).quantity = .fin q)
    (hb : |p * q| < 100 * 2 ^ 46) :
    ∃ cards : List String,
      (renderCartItems numStr (some items) w).doc.cartItems = some (String.join cards)
        ∧ cards.length = items.length
        ∧ (∀ (j : Nat) (hj : j < items.length), ∃ total : String,
            cards[j]? = some
              ("\n        <div class=\"cart-item\" data-item-line=\""
              ++ toString (j + 1)
              ++ "\" data-item-key=\""
              ++ (items.get ⟨j, hj⟩).key
              ++ "\">\n          <div class=\"item-header\">\n            <h4>"
              ++ (items.get ⟨j, hj⟩).title
              ++ "</h4>\n            <button class=\"remove-btn\" data-item-line=\""
              ++ toString (j + 1)
              ++ "\" type=\"button\" title=\"Remove\">×</button>\n          </div>\n          \n          "
              ++ (if propertiesHTML (items.get ⟨j, hj⟩) ≠ "" then
                    "<div class=\"item-properties\">" ++ propertiesHTML (items.get ⟨j, hj⟩) ++ "</div>"
                  else "")
              ++ "\n          \n          <div class=\"item-footer\">\n            <div class=\"quantity-control\">\n              <button class=\"qty-btn qty-minus\" data-item-line=\""
              ++ toString (j + 1)
              ++ "\" type=\"button\">−</button>\n              <input type=\"number\" class=\"qty-input\" value=\""
              ++ numberToString numStr (items.get ⟨j, hj⟩).quantity
              ++ "\" readonly>\n              <button class=\"qty-btn qty-plus\" data-item-line=\""
              ++ toString (j + 1)
              ++ "\" type=\"button\">+</button>\n            </div>\n            <span class=\"item-price\">"
              ++ total
              ++ "</span>\n          </div>\n        </div>\n      "))
        ∧ cards[i]? = some
            ("\n        <div class=\"cart-item\" data-item-line=\""
            ++ toString (i + 1)
            ++ "\" data-item-key=\""
            ++ (items.get ⟨i, h⟩).key
            ++ "\">\n          <div class=\"item-header\">\n            <h4>"
            ++ (items.get ⟨i, h⟩).title
            ++ "</h4>\n            <button class=\"remove-btn\" data-item-line=\""
            ++ toString (i + 1)
            ++ "\" type=\"button\" title=\"Remove\">×</button>\n          </div>\n          \n          "
            ++ (if propertiesHTML (items.get ⟨i, h⟩) ≠ "" then
                  "<div class=\"item-properties\">" ++ propertiesHTML (items.get ⟨i, h⟩) ++ "</div>"
                else "")
            ++ "\n          \n          <div class=\"item-footer\">\n            <div class=\"quantity-control\">\n              <button class=\"qty-btn qty-minus\" data-item-line=\""
            ++ toString (i + 1)
            ++ "\" type=\"button\">−</button>\n              <input type=\"number\" class=\"qty-input\" value=\""
            ++ numberToString numStr (items.get ⟨i, h⟩).quantity
            ++ "\" readonly>\n              <button class=\"qty-btn qty-plus\" data-item-line=\""
            ++ toString (i + 1)
            ++ "\" type=\"button\">+</button>\n            </div>\n            <span class=\"item-price\">"
            ++ twoDecimals (p * q)
            ++ "</span>\n          </div>\n        </div>\n      ") := by
  have hne : items ≠ [] := by
    intro h0; rw [h0] at h; exact Nat.not_lt_zero _ h
  refine ⟨itemCards numStr 1 items, renderCartItems_cards numStr w old items hc hne,
    itemCards_length numStr items 1, ?_, ?_⟩
  · intro j hj
    refine ⟨itemTotalText numStr (items.get ⟨j, hj⟩), ?_⟩
    rw [itemCards_get numStr items j hj, itemCard_markup]
  · rw [itemCards_get numStr items i h, itemCard_markup,
      itemTotalText_eq numStr _ p q hp hq hb]

/-- C2 as stated fails: a unit price of 7036874417766401 with quantity 1 is shown as
70368744177664.02, not 70368744177664.01. -/
theorem lineTotal_counterexample :
    itemTotalText (fun _ => "")
        { key := "k", title := "t", price := .fin 7036874417766401, quantity := .fin 1,
          options_with_values := none, properties := none } = "70368744177664.02"
      ∧ twoDecimals (7036874417766401 * 1) = "70368744177664.01"
      ∧ (renderCartItems (fun _ => "")
          (some [{ key := "k", title := "t", price := .fin 7036874417766401, quantity := .fin 1, options_with_values := none, properties := none }])
          { doc := { cartItems := some "", subtotal := none, tax := none, total := none, sliderCart := none, cartOverlay := none, orderNotes := none }, cartNotes := none, notesTimeout := none, trace := [] }).doc.cartItems
        = some "\n        <div class=\"cart-item\" data-item-line=\"1\" data-item-key=\"k\">\n          <div class=\"item-header\">\n            <h4>t</h4>\n            <button class=\"remove-btn\" data-item-line=\"1\" type=\"button\" title=\"Remove\">×</button>\n          </div>\n          \n          \n          \n          <div class=\"item-footer\">\n            <div class=\"quantity-control\">\n              <button class=\"qty-btn qty-minus\" data-item-line=\"1\" type=\"button\">−</button>\n              <input type=\"number\" class=\"qty-input\" value=\"1\" readonly>\n              <button class=\"qty-btn qty-plus\" data-item-line=\"1\" type=\"button\">+</button>\n            </div>\n            <span class=\"item-price\">70368744177664.02</span>\n          </div>\n        </div>\n      " := by
  decide!

/-- C2 at a cart whose second item has price 500 and quantity 3: its card shows 15.00. -/
theorem lineTotal_witness :
    (({ doc := { cartItems := some "", subtotal := none, tax := none, total := none, sliderCart := none, cartOverlay := none, orderNotes := none }, cartNotes := none, notesTimeout := none, trace := [] } : World).doc.cartItems = some ""
      ∧ |(500 : ℤ) * 3| < 100 * 2 ^ 46)
      ∧ ∃ cards : List String,
          (renderCartItems (fun _ => "")
            (some [{ key := "k2", title := "Cup", price := .fin 250, quantity := .fin 1, options_with_values := none, properties := none }, { key := "k1", title := "Tea", price := .fin ((500 : ℤ) : ℚ), quantity := .fin ((3 : ℤ) : ℚ), options_with_values := none, properties := none }])
            { doc := { cartItems := some "", subtotal := none, tax := none, total := none, sliderCart := none, cartOverlay := none, orderNotes := none }, cartNotes := none, notesTimeout := none, trace := [] }).doc.cartItems = some (String.join cards)
          ∧ cards.length = 2
          ∧ cards[1]? = some "\n        <div class=\"cart-item\" data-item-line=\"2\" data-item-key=\"k1\">\n          <div class=\"item-header\">\n            <h4>Tea</h4>\n            <button class=\"remove-btn\" data-item-line=\"2\" type=\"button\" title=\"Remove\">×</button>\n          </div>\n          \n          \n          \n          <div class=\"item-footer\">\n            <div class=\"quantity-control\">\n              <button class=\"qty-btn qty-minus\" data-item-line=\"2\" type=\"button\">−</button>\n              <input type=\"number\" class=\"qty-input\" value=\"3\" readonly>\n              <button class=\"qty-btn qty-plus\" data-item-line=\"2\" type=\"button\">+</button>\n            </div>\n            <span class=\"item-price\">15.00</span>\n          </div>\n        </div>\n      " := by
  refine ⟨⟨rfl, by decide⟩, ?_⟩
  obtain ⟨cards, h1, h2, -, h3⟩ := lineTotal_shown (fun _ => "")
    { doc := { cartItems := some "", subtotal := none, tax := none, total := none, sliderCart := none, cartOverlay := none, orderNotes := none }, cartNotes := none, notesTimeout := none, trace := [] } ""
    [{ key := "k2", title := "Cup", price := .fin 250, quantity := .fin 1, options_with_values := none, properties := none }, { key := "k1", title := "Tea", price := .fin ((500 : ℤ) : ℚ), quantity := .fin ((3 : ℤ) : ℚ), options_with_values := none, properties := none }]
    1 (by decide) 500 3 rfl rfl rfl (by decide)
  refine ⟨cards, h1, h2, ?_⟩
  rw [h3]
  decide!

/-! ## C3: the totals -/

/-- C3 (amended): for a cart with integer `total_price` and integer `total_tax` (a missing
`total_tax` counting as 0), both of magnitude below `2 ^ 50`, `updateCartTotals` writes
into the elements that exist a literal `$` followed by a two-decimal amount: the
subtotal `(total_price - total_tax) / 100`, the tax `total_tax / 100` and the total
`total_price / 100`; the subtotal and the tax shown add up to the total shown. -/
theorem totals_shown (numStr : ℚ → String) (cart : Cart) (w : World) (a : ℤ) (tax : Option ℤ)
    (hp : cart.total_price = .fin a)
    (ht : cart.total_tax = tax.map fun b => JSNum.fin (b : ℚ))
    (ha : |a| < 2 ^ 50) (hb : |tax.getD 0| < 2 ^ 50) :
    (updateCartTotals numStr cart w).doc.subtotal
        = w.doc.subtotal.map (fun _ => "$" ++ twoDecimals (a - tax.getD 0))
      ∧ (updateCartTotals numStr cart w).doc.tax
        = w.doc.tax.map (fun _ => "$" ++ twoDecimals (tax.getD 0))
      ∧ (updateCartTotals numStr cart w).doc.total
        = w.doc.total.map (fun _ => "$" ++ twoDecimals a)
      ∧ (a - tax.getD 0) + tax.getD 0 = a := by
  obtain ⟨D, hD, hclose, hz, hsmall⟩ := sub_div100_close a (tax.getD 0) ha hb
  have h1 : toFixed2 numStr (JSNum.sub (JSNum.div100 (.fin a))
      (JSNum.div100 (.fin ((tax.getD 0 : ℤ) : ℚ)))) = twoDecimals (a - tax.getD 0) := by
    rw [hD]
    exact toFixed2_of_close numStr D _ hclose hz hsmall
  have h2 := toFixed2_div100 numStr (tax.getD 0) (lt_trans hb (by norm_num))
  have h3 := toFixed2_div100 numStr a (lt_trans ha (by norm_num))
  unfold updateCartTotals updateCartTotalsDoc
  simp only [hp, ht, taxOrZero_eq, h1, h2, h3]
  exact ⟨trivial, trivial, trivial, by ring⟩

/-- C3 as stated fails: a total price of 7036874417766401 is shown as
$70368744177664.02, not $70368744177664.01. -/
theorem totals_counterexample :
    (updateCartTotals (fun _ => "")
        { items := none, total_price := .fin 7036874417766401, total_tax := some (.fin 0) }
        { doc := { cartItems := none, subtotal := some "", tax := some "", total := some "",
                   sliderCart := none, cartOverlay := none, orderNotes := none },
          cartNotes := none, notesTimeout := none, trace := [] }).doc.total
      = some "$70368744177664.02"
      ∧ twoDecimals 7036874417766401 = "70368744177664.01" := by decide!

/-- C3 at total price 1500 and tax 150: the amounts are 13.50, 1.50 and 15.00. -/
theorem totals_witness :
    (|(1500 : ℤ)| < 2 ^ 50 ∧ |(some (150 : ℤ)).getD 0| < 2 ^ 50)
      ∧ (updateCartTotals (fun _ => "")
          { items := none, total_price := .fin ((1500 : ℤ) : ℚ),
            total_tax := (some (150 : ℤ)).map fun b => JSNum.fin (b : ℚ) }
          { doc := { cartItems := none, subtotal := some "", tax := some "", total := some "",
                     sliderCart := none, cartOverlay := none, orderNotes := none },
            cartNotes := none, notesTimeout := none, trace := [] }).doc.subtotal
        = some "$13.50"
      ∧ (updateCartTotals (fun _ => "")
          { items := none, total_price := .fin ((1500 : ℤ) : ℚ),
            total_tax := (some (150 : ℤ)).map fun b => JSNum.fin (b : ℚ) }
          { doc := { cartItems := none, subtotal := some "", tax := some "", total := some "",
                     sliderCart := none, cartOverlay := none, orderNotes := none },
            cartNotes := none, notesTimeout := none, trace := [] }).doc.tax
        = some "$1.50"
      ∧ (updateCartTotals (fun _ => "")
          { items := none, total_price := .fin ((1500 : ℤ) : ℚ),
            total_tax := (some (150 : ℤ)).map fun b => JSNum.fin (b : ℚ) }
          { doc := { cartItems := none, subtotal := some "", tax := some "", total := some "",
                     sliderCart := none, cartOverlay := none, orderNotes := none },
            cartNotes := none, notesTimeout := none, trace := [] }).doc.total
        = some "$15.00" :=
  ⟨⟨by decide, by decide⟩,
    (totals_shown (fun _ => "") _ _ 1500 (some 150) rfl rfl (by decide) (by decide)).1,
    (totals_shown (fun _ => "") _ _ 1500 (some 150) rfl rfl (by decide) (by decide)).2.1,
    (totals_shown (fun _ => "") _ _ 1500 (some 150) rfl rfl (by decide) (by decide)).2.2.1⟩

/-! ## C4: the click listener -/

/-- C4 (amended): the listener tests the clicked button with the listed heuristics (class
`add-to-cart`, `product-form__submit` or `product-form__submit-button`; id `AddToCart`;
`data-action` = `add-to-cart`; lower-cased text containing `add to cart`, `add to bag` or
`buy now`).  A matching button has `handleAddToCart` run on it once, which posts to the
add endpoint exactly once when the button lies in a form and not at all otherwise; a
button matching none of them leaves everything as it was. -/
theorem click_add_to_cart (numStr : ℚ → String) (addResp cartResp : Response)
    (b : Button) (w : World) :
    (isAddToCart b = true ↔
        (b.classList.contains "add-to-cart" = true
          ∨ b.classList.contains "product-form__submit" = true
          ∨ b.classList.contains "product-form__submit-button" = true
          ∨ b.id = "AddToCart"
          ∨ b.dataAction = some "add-to-cart"
          ∨ includes (toLowerCase b.textContent) "add to cart" = true
          ∨ includes (toLowerCase b.textContent) "add to bag" = true
          ∨ includes (toLowerCase b.textContent) "buy now" = true))
      ∧ (isAddToCart b = true →
          clickListener numStr addResp cartResp (some b) w
              = (some (handleAddToCart numStr addResp cartResp b w).1,
                  (handleAddToCart numStr addResp cartResp b w).2)
            ∧ addRequests (clickListener numStr addResp cartResp (some b) w).2.trace
              = addRequests w.trace ++ (b.form.map addBody).toList)
      ∧ (isAddToCart b = false →
          clickListener numStr addResp cartResp (some b) w = (some b, w)) := by
  refine ⟨?_, ?_, ?_⟩
  · simp [isAddToCart, or_assoc]
  · intro h
    have hcl : clickListener numStr addResp cartResp (some b) w
        = (some (handleAddToCart numStr addResp cartResp b w).1,
            (handleAddToCart numStr addResp cartResp b w).2) := by
      simp [clickListener, h]
    refine ⟨hcl, ?_⟩
    rw [hcl]
    simp only
    rw [(handleAddToCart_world numStr addResp cartResp b w).1]
    cases hform : b.form with
    | some f =>
      by_cases hn : addResp = .networkError
      · simp [addRequests, List.filterMap_append, hn, postedAdd]
      · cases hc : fetchedCart cartResp <;>
          simp [addRequests, List.filterMap_append, hn, postedAdd]
    | none =>
      cases hc : fetchedCart cartResp <;>
        simp [addRequests, List.filterMap_append, postedAdd]
  · intro h
    simp [clickListener, h]

/-- C4 as stated fails: a button of class `add-to-cart` outside every form matches, and its
click posts nothing to the add endpoint. -/
theorem click_add_to_cart_counterexample :
    isAddToCart { classList := ["add-to-cart"], id := "", dataAction := none,
                  textContent := "Add", disabled := false, form := none } = true
      ∧ addRequests (clickListener (fun _ => "") (.http 200 none)
          (.http 200 (some (.cart { items := some [], total_price := .fin 0, total_tax := none })))
          (some { classList := ["add-to-cart"], id := "", dataAction := none,
                  textContent := "Add", disabled := false, form := none })
          { doc := { cartItems := some "", subtotal := some "", tax := some "", total := some "",
                     sliderCart := some false, cartOverlay := some false, orderNotes := none },
            cartNotes := none, notesTimeout := none, trace := [] }).2.trace = [] := by decide!

/-- C4 at a `Buy Now` button inside a form: one post to the add endpoint. -/
theorem click_add_to_cart_witness :
    isAddToCart { classList := [], id := "", dataAction := none, textContent := "Buy Now",
                  disabled := false,
                  form := some { entries := [("id", "123"), ("quantity", "2")] } } = true
      ∧ addRequests (clickListener (fun _ => "") (.http 200 none) .networkError
          (some { classList := [], id := "", dataAction := none, textContent := "Buy Now",
                  disabled := false,
                  form := some { entries := [("id", "123"), ("quantity", "2")] } })
          { doc := { cartItems := some "", subtotal := some "", tax := some "", total := some "",
                     sliderCart := some false, cartOverlay := some false, orderNotes := none },
            cartNotes := none, notesTimeout := none, trace := [] }).2.trace
        = [addBody { entries := [("id", "123"), ("quantity", "2")] }] :=
  ⟨by decide!,
    ((click_add_to_cart (fun _ => "") (.http 200 none) .networkError
      { classList := [], id := "", dataAction := none, textContent := "Buy Now",
        disabled := false, form := some { entries := [("id", "123"), ("quantity", "2")] } }
      { doc := { cartItems := some "", subtotal := some "", tax := some "", total := some "",
                 sliderCart := some false, cartOverlay := some false, orderNotes := none },
        cartNotes := none, notesTimeout := none, trace := [] }).2.1 (by decide!)).2⟩

/-! ## C5: the posted body -/

/-- C5 (amended): for a button in a form with an `id` field `v`, `handleAddToCart` posts
exactly one body, `addBody`, of exactly one entry `{id: v, quantity: n, properties: {}}`,
where `n` is the form's quantity for every non-zero integer quantity of magnitude at most
`2 ^ 53`, and `n = 1` when the quantity is 0 or the form has no quantity field. -/
theorem add_body (numStr : ℚ → String) (addResp cartResp : Response) (b : Button) (w : World)
    (f : Form) (v : String) (hform : b.form = some f) (hid : f.get "id" = some v) :
    addRequests (handleAddToCart numStr addResp cartResp b w).2.trace
        = addRequests w.trace ++ [addBody f]
      ∧ (∀ q : ℤ, q ≠ 0 → |q| ≤ 2 ^ 53 → f.get "quantity" = some (intToString q) →
          addBody f = [{ id := some v, quantity := .fin q, properties := [] }])
      ∧ (f.get "quantity" = some (intToString 0) ∨ f.get "quantity" = none →
          addBody f = [{ id := some v, quantity := .fin 1, properties := [] }]) := by
  refine ⟨?_, ?_, ?_⟩
  · rw [(handleAddToCart_world numStr addResp cartResp b w).1, hform]
    by_cases hn : addResp = .networkError
    · simp [addRequests, List.filterMap_append, hn, postedAdd]
    · cases hc : fetchedCart cartResp <;>
        simp [addRequests, List.filterMap_append, hn, postedAdd]
  · intro q hq0 hq hquant
    have hq0' : (q : ℚ) ≠ 0 := by exact_mod_cast hq0
    simp [addBody, hid, hquant, parseInt_int q hq, JSNum.or, JSNum.truthy, hq0']
  · intro h
    rcases h with h | h
    · have h0 : parseInt (intToString 0) = .fin 0 := by
        simpa using parseInt_int 0 (by norm_num)
      simp [addBody, hid, h, h0, JSNum.or, JSNum.truthy]
    · have hnull : parseInt "null" = .nan := by decide!
      simp [addBody, hid, h, hnull, JSNum.or, JSNum.truthy]

/-- C5 as stated fails: a form holding the integer quantity 0 posts quantity 1. -/
theorem add_body_counterexample :
    intToString 0 = "0"
      ∧ addBody { entries := [("id", "123"), ("quantity", "0")] }
        = [{ id := some "123", quantity := .fin 1, properties := [] }] := by decide!

/-- C5 at id 123 and quantity 2. -/
theorem add_body_witness :
    intToString 2 = "2"
      ∧ addBody { entries := [("id", "123"), ("quantity", "2")] }
        = [{ id := some "123", quantity := .fin ((2 : ℤ) : ℚ), properties := [] }] :=
  ⟨by decide!,
    (add_body (fun _ => "") .networkError .networkError
      { classList := [], id := "", dataAction := none, textContent := "Buy Now",
        disabled := false, form := some { entries := [("id", "123"), ("quantity", "2")] } }
      { doc := { cartItems := none, subtotal := none, tax := none, total := none,
                 sliderCart := none, cartOverlay := none, orderNotes := none },
        cartNotes := none, notesTimeout := none, trace := [] }
      { entries := [("id", "123"), ("quantity", "2")] } "123" rfl (by decide!)).2.1 2
      (by decide) (by decide) (by decide!)⟩

/-! ## C6: the quantity buttons -/

/-- C6 (amended): for a cart row whose displayed quantity is the integer `q` with
`|q| < 2 ^ 53`: a click on its minus button changes nothing and sends nothing when
`q ≤ 1`, and when `q > 1` sends exactly one change request, for the row's line with
quantity `q - 1 ≥ 1`; a click on its plus button sends exactly one change request, for
the row's line with quantity `q + 1`. -/
theorem quantity_buttons (numStr : ℚ → String) (changeResp fallbackResp : Response)
    (line : String) (q : ℤ) (w : World) (hq : |q| < 2 ^ 53) :
    (q ≤ 1 →
        qtyMinusClick numStr changeResp fallbackResp
          { dataItemLine := some line, qtyInputValue := some (intToString q) } w = (w, true))
      ∧ (1 < q →
        changeRequests (qtyMinusClick numStr changeResp fallbackResp
            { dataItemLine := some line, qtyInputValue := some (intToString q) } w).1.trace
          = changeRequests w.trace ++ [(line, intToString (q - 1))] ∧ 1 ≤ q - 1)
      ∧ changeRequests (qtyPlusClick numStr changeResp fallbackResp
            { dataItemLine := some line, qtyInputValue := some (intToString q) } w).1.trace
          = changeRequests w.trace ++ [(line, intToString (q + 1))] := by
  have hq' := abs_lt.mp hq
  have hparse : parseInt (intToString q) = .fin (q : ℚ) := parseInt_int q hq.le
  refine ⟨?_, ?_, ?_⟩
  · intro h1
    have : ¬ (1 < q) := by omega
    simp [qtyMinusClick, hparse, gt_one_int, this]
  · intro h1
    have hb : |q - 1| ≤ 2 ^ 53 := by rw [abs_le]; constructor <;> omega
    refine ⟨?_, by omega⟩
    simp only [qtyMinusClick, hparse, gt_one_int, h1, decide_True, if_true,
      updateCartItemQuantity, sub_one_int q hb, numberToString_int numStr (q - 1) hb,
      Option.getD_some]
    exact changeRequests_changeLine numStr changeResp fallbackResp line _ w
  · have hb : |q + 1| ≤ 2 ^ 53 := by rw [abs_le]; constructor <;> omega
    simp only [qtyPlusClick, hparse, updateCartItemQuantity, add_one_int q hb,
      numberToString_int numStr (q + 1) hb, Option.getD_some]
    exact changeRequests_changeLine numStr changeResp fallbackResp line _ w

/-- C6 as stated fails: at the displayed quantity `2 ^ 53` the plus button requests
`2 ^ 53` again, not `2 ^ 53 + 1`. -/
theorem quantity_buttons_counterexample :
    intToString (2 ^ 53) = "9007199254740992"
      ∧ intToString (2 ^ 53 + 1) = "9007199254740993"
      ∧ changeRequests (qtyPlusClick (fun _ => "") .networkError .networkError
          { dataItemLine := some "1", qtyInputValue := some "9007199254740992" }
          { doc := { cartItems := some "", subtotal := some "", tax := some "", total := some "",
                     sliderCart := some false, cartOverlay := some false, orderNotes := none },
            cartNotes := none, notesTimeout := none, trace := [] }).1.trace
        = [("1", "9007199254740992")] := by decide!

/-- C6 at line 2 and displayed quantity 3: the minus button requests quantity 2. -/
theorem quantity_buttons_witness :
    |(3 : ℤ)| < 2 ^ 53
      ∧ changeRequests (qtyMinusClick (fun _ => "") .networkError .networkError
          { dataItemLine := some "2", qtyInputValue := some (intToString 3) }
          { doc := { cartItems := some "", subtotal := some "", tax := some "", total := some "",
                     sliderCart := some false, cartOverlay := some false, orderNotes := none },
            cartNotes := none, notesTimeout := none, trace := [] }).1.trace
        = [("2", "2")] :=
  ⟨by decide,
    ((quantity_buttons (fun _ => "") .networkError .networkError "2" 3
      { doc := { cartItems := some "", subtotal := some "", tax := some "", total := some "",
                 sliderCart := some false, cartOverlay := some false, orderNotes := none },
        cartNotes := none, notesTimeout := none, trace := [] } (by decide)).2.1 (by decide)).1⟩

/-! ## C7: the fallback of a failed change -/

/-- C7 (amended): a failed change request of `updateCartItemQuantity` or `removeFromCart`
is followed by exactly one fallback cart fetch; when that fetch delivers a cart, by
exactly one render of its items and totals, and when it does not, by no render (the
promise is rejected).  A change request that delivers a cart is followed by one render of
that cart and by no fetch. -/
theorem change_request_fallback (numStr : ℚ → String) (changeResp fallbackResp : Response)
    (lineNumber : Option String) (newQuantity : JSNum) (w : World) :
    (changeResp.ok = false →
      (∀ c, fetchedCart fallbackResp = some c →
        ((updateCartItemQuantity numStr changeResp fallbackResp lineNumber newQuantity w).1.trace
            = w.trace ++ [.fetch (.change (lineNumber.getD "null")
                  (numberToString numStr newQuantity)),
                .fetch .cart, .renderCartItems c.items, .updateCartTotals c]
          ∧ (updateCartItemQuantity numStr changeResp fallbackResp lineNumber newQuantity w).1.doc
            = updateCartTotalsDoc numStr c (renderCartItemsDoc numStr c.items w.doc))
        ∧ ((removeFromCart numStr changeResp fallbackResp lineNumber w).1.trace
            = w.trace ++ [.fetch (.change (lineNumber.getD "null") "0"),
                .fetch .cart, .renderCartItems c.items, .updateCartTotals c]
          ∧ (removeFromCart numStr changeResp fallbackResp lineNumber w).1.doc
            = updateCartTotalsDoc numStr c (renderCartItemsDoc numStr c.items w.doc)))
      ∧ (fetchedCart fallbackResp = none →
        ((updateCartItemQuantity numStr changeResp fallbackResp lineNumber newQuantity w).1.trace
            = w.trace ++ [.fetch (.change (lineNumber.getD "null")
                  (numberToString numStr newQuantity)), .fetch .cart]
          ∧ (updateCartItemQuantity numStr changeResp fallbackResp lineNumber newQuantity w).1.doc
            = w.doc
          ∧ (updateCartItemQuantity numStr changeResp fallbackResp lineNumber newQuantity w).2
            = false)
        ∧ ((removeFromCart numStr changeResp fallbackResp lineNumber w).1.trace
            = w.trace ++ [.fetch (.change (lineNumber.getD "null") "0"), .fetch .cart]
          ∧ (removeFromCart numStr changeResp fallbackResp lineNumber w).1.doc = w.doc
          ∧ (removeFromCart numStr changeResp fallbackResp lineNumber w).2 = false)))
    ∧ (∀ c, fetchedCart changeResp = some c →
      ((updateCartItemQuantity numStr changeResp fallbackResp lineNumber newQuantity w).1.trace
          = w.trace ++ [.fetch (.change (lineNumber.getD "null")
                (numberToString numStr newQuantity)),
              .renderCartItems c.items, .updateCartTotals c]
        ∧ (updateCartItemQuantity numStr changeResp fallbackResp lineNumber newQuantity w).1.doc
          = updateCartTotalsDoc numStr c (renderCartItemsDoc numStr c.items w.doc))
      ∧ ((removeFromCart numStr changeResp fallbackResp lineNumber w).1.trace
          = w.trace ++ [.fetch (.change (lineNumber.getD "null") "0"),
              .renderCartItems c.items, .updateCartTotals c]
        ∧ (removeFromCart numStr changeResp fallbackResp lineNumber w).1.doc
          = updateCartTotalsDoc numStr c (renderCartItemsDoc numStr c.items w.doc))) := by
  have h0 : numberToString numStr (.fin 0) = "0" := by
    have h := numberToString_int numStr 0 (by norm_num)
    have h1 : intToString 0 = "0" := by decide!
    rw [Int.cast_zero, h1] at h
    exact h
  unfold updateCartItemQuantity removeFromCart
  rw [h0]
  refine ⟨fun hnot => ?_, fun c hc => ⟨?_, ?_⟩⟩
  have hfail := fetchedCart_of_not_ok changeResp hnot
  refine ⟨fun c hc => ⟨?_, ?_⟩, fun hn => ⟨?_, ?_⟩⟩
  · have := (changeLine_of_failure numStr changeResp fallbackResp (lineNumber.getD "null")
      (numberToString numStr newQuantity) w hfail).1 c hc
    exact ⟨this.1, this.2.1⟩
  · have := (changeLine_of_failure numStr changeResp fallbackResp (lineNumber.getD "null")
      "0" w hfail).1 c hc
    exact ⟨this.1, this.2.1⟩
  · exact (changeLine_of_failure numStr changeResp fallbackResp _ _ w hfail).2 hn
  · exact (changeLine_of_failure numStr changeResp fallbackResp _ _ w hfail).2 hn
  · have := changeLine_of_success numStr changeResp fallbackResp (lineNumber.getD "null")
      (numberToString numStr newQuantity) w c hc
    exact ⟨this.1, this.2.1⟩
  · have := changeLine_of_success numStr changeResp fallbackResp (lineNumber.getD "null")
      "0" w c hc
    exact ⟨this.1, this.2.1⟩

/-- C7 as stated fails: when the change request and the fallback fetch both fail, no
render follows. -/
theorem change_request_fallback_counterexample :
    (Response.networkError).ok = false
      ∧ renderCalls (removeFromCart (fun _ => "") .networkError .networkError (some "1")
          { doc := { cartItems := some "", subtotal := some "", tax := some "", total := some "",
                     sliderCart := some false, cartOverlay := some false, orderNotes := none },
            cartNotes := none, notesTimeout := none, trace := [] }).1.trace = []
      ∧ (removeFromCart (fun _ => "") .networkError .networkError (some "1")
          { doc := { cartItems := some "", subtotal := some "", tax := some "", total := some "",
                     sliderCart := some false, cartOverlay := some false, orderNotes := none },
            cartNotes := none, notesTimeout := none, trace := [] }).1.trace
          = [.fetch (.change "1" "0"), .fetch .cart] := by decide!

/-- C7 at a change request answered with status 422 and a fallback fetch that delivers an
empty cart. -/
theorem change_request_fallback_witness :
    (Response.http 422 none).ok = false
      ∧ fetchedCart (.http 200 (some (.cart { items := some [], total_price := .fin 0, total_tax := none })))
          = some { items := some [], total_price := .fin 0, total_tax := none }
      ∧ (removeFromCart (fun _ => "") (.http 422 none)
          (.http 200 (some (.cart { items := some [], total_price := .fin 0, total_tax := none })))
          (some "1")
          { doc := { cartItems := some "", subtotal := some "", tax := some "", total := some "",
                     sliderCart := some false, cartOverlay := some false, orderNotes := none },
            cartNotes := none, notesTimeout := none, trace := [] }).1.trace
          = [.fetch (.change "1" "0"), .fetch .cart, .renderCartItems (some []),
              .updateCartTotals { items := some [], total_price := .fin 0, total_tax := none }] :=
  ⟨by decide, by decide,
    (((change_request_fallback (fun _ => "") (.http 422 none)
      (.http 200 (some (.cart { items := some [], total_price := .fin 0, total_tax := none })))
      (some "1") (.fin 1) _).1 (by decide)).1
        { items := some [], total_price := .fin 0, total_tax := none } (by decide)).2.1⟩

/-! ## C8: the button after an add -/

/-- C8: whatever the add request and the cart fetch give, when `handleAddToCart` ends the
button is enabled and has the label it had at the start.  A non-success status of the add
request does not abort the flow: when the cart fetch delivers a cart, it is rendered and
the panel is opened.  A throw (the add request is rejected; or the cart fetch is rejected,
has a non-success status, has no JSON body, or gives `null`, on which rendering throws)
produces the alert and leaves the page, the panel included, as it was. -/
theorem add_to_cart_outcomes (numStr : ℚ → String) (addResp cartResp : Response)
    (b : Button) (w : World) :
    ((handleAddToCart numStr addResp cartResp b w).1.disabled = false
        ∧ (handleAddToCart numStr addResp cartResp b w).1.textContent = b.textContent)
      ∧ (∀ f status body c, b.form = some f → addResp = .http status body →
          (Response.http status body).ok = false → fetchedCart cartResp = some c →
          (handleAddToCart numStr addResp cartResp b w).2.trace
              = w.trace ++ [.fetch (.add (addBody f)), .fetch .cart, .renderCartItems c.items,
                  .updateCartTotals c, .openCartSlider]
            ∧ (handleAddToCart numStr addResp cartResp b w).2.doc
              = (openCartSlider (updateCartTotals numStr c
                  (renderCartItems numStr c.items w))).doc)
      ∧ (∀ f, b.form = some f → addResp = .networkError →
          (handleAddToCart numStr addResp cartResp b w).2.trace
              = w.trace ++ [.fetch (.add (addBody f)),
                  .alert "Error adding item to cart. Please try again."]
            ∧ (handleAddToCart numStr addResp cartResp b w).2.doc = w.doc)
      ∧ (¬ (b.form.isSome ∧ addResp = .networkError) → fetchedCart cartResp = none →
          (handleAddToCart numStr addResp cartResp b w).2.trace
              = w.trace ++ postedAdd b.form
                ++ [.fetch .cart, .alert "Error adding item to cart. Please try again."]
            ∧ (handleAddToCart numStr addResp cartResp b w).2.doc = w.doc) := by
  have hw := handleAddToCart_world numStr addResp cartResp b w
  refine ⟨⟨rfl, rfl⟩, ?_, ?_, ?_⟩
  · intro f status body c hform hadd _ hc
    rw [hw.1, hw.2, hform, hadd, hc]
    simp [postedAdd]
  · intro f hform hadd
    rw [hw.1, hw.2, hform, hadd]
    simp [postedAdd]
  · intro hn hc
    rw [hw.1, hw.2, hc, if_neg hn, if_neg hn]
    exact ⟨rfl, rfl⟩

/-- C8 at an add request answered with status 422: the panel is opened. -/
theorem add_to_cart_outcomes_witness :
    (Response.http 422 none).ok = false
      ∧ (handleAddToCart (fun _ => "") (.http 422 none)
          (.http 200 (some (.cart { items := some [], total_price := .fin 0, total_tax := none })))
          { classList := [], id := "", dataAction := none, textContent := "Buy Now",
            disabled := false, form := some { entries := [("id", "123"), ("quantity", "2")] } }
          { doc := { cartItems := some "", subtotal := some "", tax := some "", total := some "",
                     sliderCart := some false, cartOverlay := some false, orderNotes := none },
            cartNotes := none, notesTimeout := none, trace := [] }).2.doc.sliderCart = some true :=
  ⟨by decide,
    by
      have h := ((add_to_cart_outcomes (fun _ => "") (.http 422 none)
          (.http 200 (some (.cart { items := some [], total_price := .fin 0, total_tax := none })))
          { classList := [], id := "", dataAction := none, textContent := "Buy Now",
            disabled := false, form := some { entries := [("id", "123"), ("quantity", "2")] } }
          { doc := { cartItems := some "", subtotal := some "", tax := some "", total := some "",
                     sliderCart := some false, cartOverlay := some false, orderNotes := none },
            cartNotes := none, notesTimeout := none, trace := [] }).2.1
          { entries := [("id", "123"), ("quantity", "2")] } 422 none
          { items := some [], total_price := .fin 0, total_tax := none }
          rfl rfl (by decide) (by decide)).2
      rw [h]
      rfl⟩

/-! ## C9: the cart on page load -/

/-- C9 (amended): when the fetch made on page load delivers a cart with at least one item,
the load listener renders it: the container and the totals show what `renderCartItems` and
`updateCartTotals` produce for that cart.  For a cart without items nothing is rendered:
the container and the totals stay as the page had them. -/
theorem load_renders (numStr : ℚ → String) (cartResp : Response) (w : World) (c : Cart)
    (hc : fetchedCart cartResp = some c) :
    (∀ item rest, c.items = some (item :: rest) →
        (loadListener numStr cartResp w).doc.cartItems
            = (renderCartItems numStr c.items w).doc.cartItems
          ∧ (loadListener numStr cartResp w).doc.subtotal
            = (updateCartTotals numStr c w).doc.subtotal
          ∧ (loadListener numStr cartResp w).doc.tax = (updateCartTotals numStr c w).doc.tax
          ∧ (loadListener numStr cartResp w).doc.total = (updateCartTotals numStr c w).doc.total
          ∧ (loadListener numStr cartResp w).trace
            = w.trace ++ [.fetch .cart, .renderCartItems c.items, .updateCartTotals c])
      ∧ (c.items = none ∨ c.items = some [] →
        (loadListener numStr cartResp w).doc.cartItems = w.doc.cartItems
          ∧ (loadListener numStr cartResp w).doc.subtotal = w.doc.subtotal
          ∧ (loadListener numStr cartResp w).doc.tax = w.doc.tax
          ∧ (loadListener numStr cartResp w).doc.total = w.doc.total
          ∧ (loadListener numStr cartResp w).trace = w.trace ++ [.fetch .cart]) := by
  constructor
  · intro item rest hitems
    unfold loadListener loadCart restoreNotes
    simp only [fetchShopifyCart_of_cart cartResp c _ hc, hitems]
    cases hn : w.cartNotes with
    | none =>
      simp only [renderCartItems, updateCartTotals, renderCartItemsDoc, updateCartTotalsDoc]
      cases hci : w.doc.cartItems <;> simp [hci]
    | some s =>
      by_cases hs : s = ""
      · simp only [hs, ne_eq, not_true_eq_false, if_false, renderCartItems, updateCartTotals,
          renderCartItemsDoc, updateCartTotalsDoc]
        cases hci : w.doc.cartItems <;> simp [hci]
      · simp only [ne_eq, hs, not_false_eq_true, if_true, renderCartItems, updateCartTotals,
          renderCartItemsDoc, updateCartTotalsDoc]
        cases hci : w.doc.cartItems <;> simp [hci]
  · intro hitems
    unfold loadListener loadCart restoreNotes
    simp only [fetchShopifyCart_of_cart cartResp c _ hc]
    rcases hitems with h | h <;> rw [h] <;>
      cases hn : w.cartNotes with
      | none => simp
      | some s => by_cases hs : s = "" <;> simp [hs]

/-- C9 as stated fails: for a cart with no items the container keeps its content, where
`renderCartItems` would write the empty-state markup, and the total keeps its text,
where `updateCartTotals` would write `$0.00`. -/
theorem load_renders_counterexample :
    (loadListener (fun _ => "")
        (.http 200 (some (.cart { items := some [], total_price := .fin 0, total_tax := none })))
        { doc := { cartItems := some "", subtotal := some "", tax := some "", total := some "",
                   sliderCart := some false, cartOverlay := some false, orderNotes := none },
          cartNotes := none, notesTimeout := none, trace := [] }).doc.cartItems = some ""
      ∧ (renderCartItems (fun _ => "") (some [])
        { doc := { cartItems := some "", subtotal := some "", tax := some "", total := some "",
                   sliderCart := some false, cartOverlay := some false, orderNotes := none },
          cartNotes := none, notesTimeout := none, trace := [] }).doc.cartItems
        = some emptyCartHTML
      ∧ emptyCartHTML ≠ ""
      ∧ (loadListener (fun _ => "")
        (.http 200 (some (.cart { items := some [], total_price := .fin 0, total_tax := none })))
        { doc := { cartItems := some "", subtotal := some "", tax := some "", total := some "",
                   sliderCart := some false, cartOverlay := some false, orderNotes := none },
          cartNotes := none, notesTimeout := none, trace := [] }).doc.total = some ""
      ∧ (updateCartTotals (fun _ => "")
          { items := some [], total_price := .fin 0, total_tax := none }
        { doc := { cartItems := some "", subtotal := some "", tax := some "", total := some "",
                   sliderCart := some false, cartOverlay := some false, orderNotes := none },
          cartNotes := none, notesTimeout := none, trace := [] }).doc.total = some "$0.00" := by
  decide!

/-- C9 at a cart of one item. -/
theorem load_renders_witness :
    fetchedCart (.http 200 (some (.cart
        { items := some [{ key := "k1", title := "Tea", price := .fin 500, quantity := .fin 3,
                           options_with_values := none, properties := none }],
          total_price := .fin 1500, total_tax := some (.fin 150) })))
      = some { items := some [{ key := "k1", title := "Tea", price := .fin 500,
                                quantity := .fin 3, options_with_values := none,
                                properties := none }],
               total_price := .fin 1500, total_tax := some (.fin 150) }
      ∧ (loadListener (fun _ => "") (.http 200 (some (.cart
          { items := some [{ key := "k1", title := "Tea", price := .fin 500, quantity := .fin 3,
                             options_with_values := none, properties := none }],
            total_price := .fin 1500, total_tax := some (.fin 150) })))
          { doc := { cartItems := some "", subtotal := some "", tax := some "",
                     total := some "", sliderCart := some false, cartOverlay := some false,
                     orderNotes := none },
            cartNotes := none, notesTimeout := none, trace := [] }).trace
        = [.fetch .cart,
           .renderCartItems (some [{ key := "k1", title := "Tea", price := .fin 500,
                                     quantity := .fin 3, options_with_values := none,
                                     properties := none }]),
           .updateCartTotals
             { items := some [{ key := "k1", title := "Tea", price := .fin 500,
                                quantity := .fin 3, options_with_values := none,
                                properties := none }],
               total_price := .fin 1500, total_tax := some (.fin 150) }] :=
  ⟨rfl,
    ((load_renders (fun _ => "") (.http 200 (some (.cart
        { items := some [{ key := "k1", title := "Tea", price := .fin 500, quantity := .fin 3,
                           options_with_values := none, properties := none }],
          total_price := .fin 1500, total_tax := some (.fin 150) })))
      { doc := { cartItems := some "", subtotal := some "", tax := some "", total := some "",
                 sliderCart := some false, cartOverlay := some false, orderNotes := none },
        cartNotes := none, notesTimeout := none, trace := [] }
      { items := some [{ key := "k1", title := "Tea", price := .fin 500, quantity := .fin 3,
                         options_with_values := none, properties := none }],
        total_price := .fin 1500, total_tax := some (.fin 150) } rfl).1 _ _ rfl).2.2.2.2⟩

/-! ## C10: the notes field -/

/-- C10 (amended): on a page with the notes field, after any sequence of input events that
ends with the field holding `t`, once 1000 ms or more pass without input the stored notes
are exactly `t`; when every pause between the inputs is below 1000 ms and no timer was
pending before, that save is the only one.  A following page load puts `t` into the notes
field when `t` is not empty; when `t` is empty the field keeps what the page delivered. -/
theorem notes_debounce (numStr : ℚ → String) (cartResp : Response) (w : World)
    (steps : List (Nat × String)) (pause : Nat) (t : String) (d : Nat) (page : Doc)
    (hfield : w.doc.orderNotes.isSome) (hd : 1000 ≤ d) :
    (elapse d (typeNotes (steps ++ [(pause, t)]) w)).cartNotes = some t
      ∧ (w.notesTimeout = none → (∀ s ∈ steps ++ [(pause, t)], s.1 < 1000) →
          (elapse d (typeNotes (steps ++ [(pause, t)]) w)).trace
            = w.trace ++ [.setItem "cartNotes" t])
      ∧ (t ≠ "" → page.orderNotes.isSome →
          (loadListener numStr cartResp
            (reload page (elapse d (typeNotes (steps ++ [(pause, t)]) w)))).doc.orderNotes
            = some t)
      ∧ (t = "" →
          (loadListener numStr cartResp
            (reload page (elapse d (typeNotes (steps ++ [(pause, t)]) w)))).doc.orderNotes
            = page.orderNotes) := by
  have h1 : (typeNotes steps w).doc.orderNotes.isSome := typeNotes_isSome steps w hfield
  have h2 : (elapse pause (typeNotes steps w)).doc.orderNotes.isSome := by
    rw [elapse_doc]; exact h1
  have hin := notesInput_isSome t _ h2
  have hfire := elapse_fires d (typeNotes (steps ++ [(pause, t)]) w) t hd
    (by rw [typeNotes_append]; exact hin.1) (by rw [typeNotes_append]; exact hin.2.1)
  have hstored : (elapse d (typeNotes (steps ++ [(pause, t)]) w)).cartNotes = some t := by
    rw [hfire]
  refine ⟨hstored, ?_, ?_, ?_⟩
  · intro hnone hp
    rw [hfire]
    simp only
    rw [(typeNotes_quiet (steps ++ [(pause, t)]) w hfield (Or.inl hnone) hp).1]
  · intro ht hpage
    obtain ⟨v, hv⟩ := Option.isSome_iff_exists.mp hpage
    rw [loadListener_orderNotes]
    simp [restoreNotes, reload, hstored, ht, hv]
  · intro ht
    subst ht
    rw [loadListener_orderNotes]
    simp [restoreNotes, reload, hstored]

/-- C10 as stated fails: after the text is typed and deleted again the stored value is
empty, and the next load leaves the note the page delivered in the field. -/
theorem notes_debounce_counterexample :
    (elapse 1000 (typeNotes [(0, "a"), (10, "")]
        { doc := { cartItems := none, subtotal := none, tax := none, total := none,
                   sliderCart := none, cartOverlay := none, orderNotes := some "" },
          cartNotes := none, notesTimeout := none, trace := [] })).cartNotes = some ""
      ∧ (loadListener (fun _ => "") .networkError
          (reload { cartItems := none, subtotal := none, tax := none, total := none,
                    sliderCart := none, cartOverlay := none,
                    orderNotes := some "Leave at the door" }
            (elapse 1000 (typeNotes [(0, "a"), (10, "")]
              { doc := { cartItems := none, subtotal := none, tax := none, total := none,
                         sliderCart := none, cartOverlay := none, orderNotes := some "" },
                cartNotes := none, notesTimeout := none, trace := [] })))).doc.orderNotes
        = some "Leave at the door" := by decide!

/-- C10 at the texts `h`, `hi` typed 300 ms apart. -/
theorem notes_debounce_witness :
    (({ doc := { cartItems := none, subtotal := none, tax := none, total := none,
                 sliderCart := none, cartOverlay := none, orderNotes := some "" },
        cartNotes := none, notesTimeout := none, trace := [] } : World).doc.orderNotes.isSome
        = true ∧ 1000 ≤ 1200)
      ∧ (elapse 1200 (typeNotes ([(0, "h")] ++ [(300, "hi")])
          { doc := { cartItems := none, subtotal := none, tax := none, total := none,
                     sliderCart := none, cartOverlay := none, orderNotes := some "" },
            cartNotes := none, notesTimeout := none, trace := [] })).cartNotes = some "hi" :=
  ⟨⟨rfl, by decide⟩,
    (notes_debounce (fun _ => "") .networkError
      { doc := { cartItems := none, subtotal := none, tax := none, total := none,
                 sliderCart := none, cartOverlay := none, orderNotes := some "" },
        cartNotes := none, notesTimeout := none, trace := [] }
      [(0, "h")] 300 "hi" 1200
      { cartItems := none, subtotal := none, tax := none, total := none,
        sliderCart := none, cartOverlay := none, orderNotes := some "" } rfl (by decide)).1⟩

end SliderCart
